import Mathlib

set_option maxHeartbeats 1000000

/-!
Shallow embedding of the AEP solar panel planner: the 2D editor core
(class AEPEditor2D in editor2d.js) and the 3D structure resolver
(class AEPEditor3D in the same bundle).  All coordinates are modelled
as rationals.  Where the source calls Math.PI or Math.tan, the model
threads an explicit rational parameter (piQ, tanQ), since both call
sites use the very same library function; where the source compares
Euclidean distances obtained with Math.sqrt, the model compares the
squared distances, which selects the same index because sqrt is
strictly monotone on nonnegative reals.
-/

/-- A point {x, y} in cm. -/
structure Pt where
  x : ℚ
  y : ℚ
deriving DecidableEq, Repr

/-- An axis-aligned bounds rectangle {minX, maxX, minY, maxY}, the shape
used for constructionBounds, panelBounds and the terrace bounding box. -/
structure Bounds4 where
  minX : ℚ
  maxX : ℚ
  minY : ℚ
  maxY : ℚ
deriving DecidableEq, Repr

/-- A rectangle {x, y, w, h} as used for obstacles, panels and the
selection rectangle. -/
structure RectXYWH where
  x : ℚ
  y : ℚ
  w : ℚ
  h : ℚ
deriving DecidableEq, Repr

/-- An obstacle {x, y, w, h, type}; the type tag is modelled as a number. -/
structure Obstacle where
  x : ℚ
  y : ℚ
  w : ℚ
  h : ℚ
  kind : ℕ
deriving DecidableEq, Repr

/-- A beam {x1, y1, x2, y2, profile, isAutoStructure}; the profile tag is
modelled as a number. -/
structure Beam where
  x1 : ℚ
  y1 : ℚ
  x2 : ℚ
  y2 : ℚ
  profile : ℕ
  isAutoStructure : Bool
deriving DecidableEq, Repr

/-- A panel {x, y, w, h, realHeight, inclination, power}. -/
structure Panel where
  x : ℚ
  y : ℚ
  w : ℚ
  h : ℚ
  realHeight : ℚ
  inclination : ℚ
  power : ℚ
deriving DecidableEq, Repr

/-- A text item {x, y, text, size}; the text content is modelled as a
number (an identifier for the string). -/
structure TextItem where
  x : ℚ
  y : ℚ
  content : ℕ
  size : ℚ
deriving DecidableEq, Repr

/-- The panelConfig record {width, height, inclination, power}. -/
structure PanelConfig where
  width : ℚ
  height : ℚ
  inclination : ℚ
  power : ℚ
deriving DecidableEq, Repr

/-- The textConfig record {content, size}; content modelled as a number. -/
structure TextConfig where
  content : ℕ
  size : ℚ
deriving DecidableEq, Repr

/-- The four element kinds used by selection entries
('panel' / 'obstacle' / 'beam' / 'text'). -/
inductive ElemKind where
  | panel
  | obstacle
  | beam
  | text
deriving DecidableEq, Repr

/-- A selection entry { type, index }. -/
structure SelEntry where
  kind : ElemKind
  index : ℕ
deriving DecidableEq, Repr

/-- The editor's data state: the element store, the derived bounds, the
in-progress terrace points, the selection and the defaults.  View state
(pan/zoom/canvas) carries no decision logic and is omitted. -/
structure EditorState where
  terraceVertices : List Pt
  constructionBounds : Option Bounds4
  panelBounds : Option Bounds4
  obstacles : List Obstacle
  beams : List Beam
  panels : List Panel
  texts : List TextItem
  tempPoints : List Pt
  selectedElements : List SelEntry
  panelConfig : PanelConfig
  textConfig : TextConfig
  scale : ℚ
deriving DecidableEq, Repr

/-- JavaScript numeric truthiness fallback `a || d`: a missing or zero
number falls back to the default. -/
def jsOr (o : Option ℚ) (d : ℚ) : ℚ :=
  match o with
  | none => d
  | some v => if v = 0 then d else v

/-- getTerraceBounds: bounding box of the terrace polygon; null when the
terrace has fewer than 3 vertices.  The source folds min/max starting
from plus/minus Infinity; over a nonempty list this equals folding from
the first vertex. -/
def getTerraceBounds (verts : List Pt) : Option Bounds4 :=
  if verts.length < 3 then none
  else
    match verts with
    | [] => none
    | v :: vs =>
      some
        { minX := vs.foldl (fun a p => min a p.x) v.x
          maxX := vs.foldl (fun a p => max a p.x) v.x
          minY := vs.foldl (fun a p => min a p.y) v.y
          maxY := vs.foldl (fun a p => max a p.y) v.y }

/-- _calculateConstructionBounds: expand a bounding box by a margin on
every side. -/
def calculateConstructionBounds (bounds : Bounds4) (margin : ℚ) : Bounds4 :=
  { minX := bounds.minX - margin
    maxX := bounds.maxX + margin
    minY := bounds.minY - margin
    maxY := bounds.maxY + margin }

/-- _calculatePanelBounds: expand a bounding box by a further margin on
every side (identical arithmetic, applied to the construction bounds). -/
def calculatePanelBounds (bounds : Bounds4) (margin : ℚ) : Bounds4 :=
  { minX := bounds.minX - margin
    maxX := bounds.maxX + margin
    minY := bounds.minY - margin
    maxY := bounds.maxY + margin }

/-- Rectangle containment of axis-aligned bounds: a is inside b. -/
def boundsSubset (a b : Bounds4) : Prop :=
  b.minX ≤ a.minX ∧ a.maxX ≤ b.maxX ∧ b.minY ≤ a.minY ∧ a.maxY ≤ b.maxY

instance (a b : Bounds4) : Decidable (boundsSubset a b) := by
  unfold boundsSubset
  infer_instance

/-- _isWithinConstructionBounds: point containment; unset bounds accept
everything. -/
def isWithinConstructionBounds (cb : Option Bounds4) (x y : ℚ) : Bool :=
  match cb with
  | none => true
  | some b =>
    decide (b.minX ≤ x) && decide (x ≤ b.maxX) &&
    decide (b.minY ≤ y) && decide (y ≤ b.maxY)

/-- _isRectWithinPanelBounds: rectangle containment against the panel
bounds; unset bounds accept everything. -/
def isRectWithinPanelBounds (pb : Option Bounds4) (rect : RectXYWH) : Bool :=
  match pb with
  | none => true
  | some b =>
    decide (b.minX ≤ rect.x) && decide (b.minY ≤ rect.y) &&
    decide (rect.x + rect.w ≤ b.maxX) && decide (rect.y + rect.h ≤ b.maxY)

/-- _isLineWithinConstructionBounds: both endpoints must be inside. -/
def isLineWithinConstructionBounds (cb : Option Bounds4) (x1 y1 x2 y2 : ℚ) : Bool :=
  isWithinConstructionBounds cb x1 y1 && isWithinConstructionBounds cb x2 y2

/-- confirmTerrace: with at least 3 temp points, replace the terrace,
recompute construction bounds (margin 10) and panel bounds (margin 40)
and clear the temp points. -/
def confirmTerrace (s : EditorState) : EditorState :=
  if 3 ≤ s.tempPoints.length then
    let s1 := { s with terraceVertices := s.tempPoints }
    match getTerraceBounds s1.terraceVertices with
    | some bb =>
      { s1 with
        constructionBounds := some (calculateConstructionBounds bb 10)
        panelBounds :=
          some (calculatePanelBounds (calculateConstructionBounds bb 10) 40)
        tempPoints := [] }
    | none => { s1 with tempPoints := [] }
  else s

/-- setRectangularTerrace: install a w-by-h rectangle as the terrace and
recompute both bounds. -/
def setRectangularTerrace (w h : ℚ) (s : EditorState) : EditorState :=
  let s1 := { s with terraceVertices := [⟨0, 0⟩, ⟨w, 0⟩, ⟨w, h⟩, ⟨0, h⟩] }
  match getTerraceBounds s1.terraceVertices with
  | some bb =>
    { s1 with
      constructionBounds := some (calculateConstructionBounds bb 10)
      panelBounds :=
        some (calculatePanelBounds (calculateConstructionBounds bb 10) 40) }
  | none => s1

/-- clearAll: drop the terrace, both bounds, every element collection and
the temp points.  (The source resets a stale `selectedElement` field, not
`selectedElements`, so the selection list is left as is.) -/
def clearAll (s : EditorState) : EditorState :=
  { s with
    terraceVertices := []
    constructionBounds := none
    panelBounds := none
    obstacles := []
    beams := []
    panels := []
    texts := []
    tempPoints := [] }

/-- The beamInclination request {degrees, startBeam, endBeam}; endBeam −1
means "to the last beam". -/
structure Inclination where
  degrees : ℚ
  startBeam : ℤ
  endBeam : ℤ
deriving DecidableEq, Repr

/-- The structure bounds {minX, maxX, minZ, maxZ} in centered 3D
coordinates. -/
structure SBounds where
  minX : ℚ
  maxX : ℚ
  minZ : ℚ
  maxZ : ℚ
deriving DecidableEq, Repr

/-- The resolved inclination range
{startIndex, endIndex, minZ, maxZ, invert}. -/
structure RangeInfo where
  startIndex : ℕ
  endIndex : ℕ
  minZ : ℚ
  maxZ : ℚ
  invert : Bool
deriving DecidableEq, Repr

/-- Per-beam resolved inclination {radians, hasFullInclination}. -/
structure BeamIncl where
  radians : ℚ
  hasFullInclination : Bool
deriving DecidableEq, Repr

/-- _getStructureBounds: bounding extents of the beams (falling back to
the terrace vertices when there are no beams), in terrace-centered
coordinates; null when both are empty.  The source folds from Infinity;
over a nonempty point list this equals folding from the first point. -/
def getStructureBounds (beams : List Beam) (terraceVertices : List Pt)
    (c : Pt) : Option SBounds :=
  let pts :=
    if beams.length > 0 then
      beams.foldr (fun b acc =>
        (b.x1 - c.x, b.y1 - c.y) :: (b.x2 - c.x, b.y2 - c.y) :: acc) []
    else
      terraceVertices.map (fun v => (v.x - c.x, v.y - c.y))
  match pts with
  | [] => none
  | p :: rest =>
    some
      { minX := rest.foldl (fun a q => min a q.1) p.1
        maxX := rest.foldl (fun a q => max a q.1) p.1
        minZ := rest.foldl (fun a q => min a q.2) p.2
        maxZ := rest.foldl (fun a q => max a q.2) p.2 }

/-- The index clamp `Math.max(0, Math.min(raw, totalBeams - 1))` applied
by _getInclinationRange to both request indices. -/
def clampIndex (totalBeams : ℕ) (raw : ℤ) : ℤ :=
  max 0 (min raw ((totalBeams : ℤ) - 1))

/-- _getInclinationRange: resolve the request's indices into a depth
range.  With endBeam = −1 the range is folded over the beams from the
clamped start index through the last beam; otherwise it is taken from
the two indexed beams' endpoints.  The source's non-finite guard
(min/max left at Infinity) is modelled by the empty-fold case returning
none; over rationals every coordinate is finite. -/
def getInclinationRange (beams : List Beam) (c : Pt) (incl : Inclination) :
    Option RangeInfo :=
  match beams with
  | [] => none
  | _ :: _ =>
    let totalBeams := beams.length
    let rawStart := incl.startBeam
    let rawEnd := if incl.endBeam = -1 then (totalBeams : ℤ) - 1 else incl.endBeam
    let startIndex := clampIndex totalBeams rawStart
    let endIndex := clampIndex totalBeams rawEnd
    let rangeStart := min startIndex endIndex
    let rangeEnd := max startIndex endIndex
    if incl.endBeam = -1 then
      let idxs := List.range' rangeStart.toNat (rangeEnd.toNat + 1 - rangeStart.toNat)
      let seg := idxs.filterMap (fun i => beams.get? i)
      match seg with
      | [] => none
      | b0 :: rest =>
        some
          { startIndex := rangeStart.toNat
            endIndex := rangeEnd.toNat
            minZ := rest.foldl
              (fun a b => min a (min (b.y1 - c.y) (b.y2 - c.y)))
              (min (b0.y1 - c.y) (b0.y2 - c.y))
            maxZ := rest.foldl
              (fun a b => max a (max (b.y1 - c.y) (b.y2 - c.y)))
              (max (b0.y1 - c.y) (b0.y2 - c.y))
            invert := decide (endIndex < startIndex) }
    else
      match beams.get? startIndex.toNat, beams.get? endIndex.toNat with
      | some sb, some eb =>
        some
          { startIndex := rangeStart.toNat
            endIndex := rangeEnd.toNat
            minZ := min (min (sb.y1 - c.y) (sb.y2 - c.y))
                        (min (eb.y1 - c.y) (eb.y2 - c.y))
            maxZ := max (max (sb.y1 - c.y) (sb.y2 - c.y))
                        (max (eb.y1 - c.y) (eb.y2 - c.y))
            invert := decide (endIndex < startIndex) }
      | _, _ => none

/-- Endpoint equality within the ±1 unit per-coordinate tolerance used
by _calculateBeamInclinations. -/
def pointsEqual (p1 p2 : Pt) : Bool :=
  decide (|p1.x - p2.x| ≤ 1) && decide (|p1.y - p2.y| ≤ 1)

/-- Two beams are connected when any endpoint of one matches any endpoint
of the other within tolerance. -/
def beamsConnected (b1 b2 : Beam) : Bool :=
  pointsEqual ⟨b1.x1, b1.y1⟩ ⟨b2.x1, b2.y1⟩ ||
  pointsEqual ⟨b1.x1, b1.y1⟩ ⟨b2.x2, b2.y2⟩ ||
  pointsEqual ⟨b1.x2, b1.y2⟩ ⟨b2.x1, b2.y1⟩ ||
  pointsEqual ⟨b1.x2, b1.y2⟩ ⟨b2.x2, b2.y2⟩

/-- The bounding extremes (minX, maxX, minY, maxY) over every beam's raw
endpoints, as computed inside _calculateBeamInclinations. -/
def beamsCoordBounds (beams : List Beam) : Option (ℚ × ℚ × ℚ × ℚ) :=
  match beams with
  | [] => none
  | b :: rest =>
    some
      (rest.foldl (fun a q => min a (min q.x1 q.x2)) (min b.x1 b.x2),
       rest.foldl (fun a q => max a (max q.x1 q.x2)) (max b.x1 b.x2),
       rest.foldl (fun a q => min a (min q.y1 q.y2)) (min b.y1 b.y2),
       rest.foldl (fun a q => max a (max q.y1 q.y2)) (max b.y1 b.y2))

/-- A frame/perimeter beam: axis-aligned within tolerance 1 and lying at
one of the structure's bounding extremes. -/
def isFrameBeam (beams : List Beam) (b : Beam) : Bool :=
  match beamsCoordBounds beams with
  | none => false
  | some (minX, maxX, minY, maxY) =>
    let isHorizontal :=
      decide (|b.y1 - b.y2| ≤ 1) &&
      (decide (|b.y1 - minY| ≤ 1) || decide (|b.y1 - maxY| ≤ 1))
    let isVertical :=
      decide (|b.x1 - b.x2| ≤ 1) &&
      (decide (|b.x1 - minX| ≤ 1) || decide (|b.x1 - maxX| ≤ 1))
    isHorizontal || isVertical

/-- Whether a beam's centerline depth lies in the resolved range with the
±0.5 tolerance used when collecting rangeIndices. -/
def beamInRange (r : RangeInfo) (c : Pt) (b : Beam) : Bool :=
  let centerZ := (b.y1 + b.y2) / 2 - c.y
  decide (min r.minZ r.maxZ - 1/2 ≤ centerZ) &&
  decide (centerZ ≤ max r.minZ r.maxZ + 1/2)

/-- The rangeIndices set of _calculateBeamInclinations: indices of beams
whose centerline depth falls in the resolved range (±0.5); JS Set
iteration order is insertion order, here ascending index. -/
def inclinationRangeIndices (beams : List Beam) (c : Pt)
    (incl : Inclination) : List ℕ :=
  match getInclinationRange beams c incl with
  | none => []
  | some r =>
    (List.range beams.length).filter (fun i =>
      match beams.get? i with
      | some b => beamInRange r c b
      | none => false)

/-- _calculateBeamInclinations: full tilt for in-range beams; for a beam
connected to an in-range beam, full tilt when it is a frame beam and a
quarter tilt otherwise; zero elsewhere.  piQ stands for Math.PI. -/
def calculateBeamInclinations (piQ : ℚ) (beams : List Beam) (c : Pt)
    (incl : Inclination) : List BeamIncl :=
  match beams with
  | [] => []
  | _ :: _ =>
    let baseRadians := incl.degrees * piQ / 180
    let rangeIndices := inclinationRangeIndices beams c incl
    (List.range beams.length).map (fun i =>
      match beams.get? i with
      | none => ⟨0, false⟩
      | some b =>
        if rangeIndices.contains i then
          ⟨baseRadians, true⟩
        else
          if rangeIndices.any (fun j =>
              decide (j < beams.length) &&
              match beams.get? j with
              | some bj => beamsConnected b bj
              | none => false) then
            if isFrameBeam beams b then ⟨baseRadians, true⟩
            else ⟨baseRadians * (1/4), false⟩
          else ⟨0, false⟩)

/-- The getHeightAtZ closure defined inside _buildBeams: flat base height
when bounds are missing, the depth span is zero or the tilt is zero;
otherwise base + rise·t with t clamped to [0,1] and flipped on an
inverted profile.  tanQ stands for Math.tan. -/
def buildBeamsHeightAtZ (tanQ : ℚ → ℚ) (beams : List Beam) (c : Pt)
    (incl : Inclination) (height z radians : ℚ) : ℚ :=
  let bounds := getStructureBounds beams [] c
  let rangeInfo := getInclinationRange beams c incl
  let zMin := match rangeInfo with
    | some r => r.minZ
    | none => match bounds with
      | some b => b.minZ
      | none => 0
  let zMax := match rangeInfo with
    | some r => r.maxZ
    | none => match bounds with
      | some b => b.maxZ
      | none => 0
  let zSpan := zMax - zMin
  if bounds.isNone ∨ zSpan = 0 ∨ radians = 0 then height
  else
    let rise := zSpan * tanQ radians
    let t0 := (z - zMin) / zSpan
    let t1 := if (match rangeInfo with
      | some r => r.invert
      | none => false) then 1 - t0 else t0
    let t2 := max 0 (min 1 t1)
    height + rise * t2

/-- The getHeightAtZ closure defined inside _buildPanels, transcribed
from its own source lines. -/
def buildPanelsHeightAtZ (tanQ : ℚ → ℚ) (beams : List Beam) (c : Pt)
    (incl : Inclination) (height z radians : ℚ) : ℚ :=
  let bounds := getStructureBounds beams [] c
  let rangeInfo := getInclinationRange beams c incl
  let zMin := match rangeInfo with
    | some r => r.minZ
    | none => match bounds with
      | some b => b.minZ
      | none => 0
  let zMax := match rangeInfo with
    | some r => r.maxZ
    | none => match bounds with
      | some b => b.maxZ
      | none => 0
  let zSpan := zMax - zMin
  if bounds.isNone ∨ zSpan = 0 ∨ radians = 0 then height
  else
    let rise := zSpan * tanQ radians
    let t0 := (z - zMin) / zSpan
    let t1 := if (match rangeInfo with
      | some r => r.invert
      | none => false) then 1 - t0 else t0
    let t2 := max 0 (min 1 t1)
    height + rise * t2

/-- The denominator of the parametric segment intersection test in
_linesIntersect. -/
def interDenom (x1 y1 x2 y2 x3 y3 x4 y4 : ℚ) : ℚ :=
  (x1 - x2) * (y3 - y4) - (y1 - y2) * (x3 - x4)

/-- The first segment's parameter t in _linesIntersect. -/
def interT (x1 y1 x2 y2 x3 y3 x4 y4 : ℚ) : ℚ :=
  ((x1 - x3) * (y3 - y4) - (y1 - y3) * (x3 - x4)) /
    interDenom x1 y1 x2 y2 x3 y3 x4 y4

/-- The second segment's parameter u in _linesIntersect. -/
def interU (x1 y1 x2 y2 x3 y3 x4 y4 : ℚ) : ℚ :=
  -((x1 - x2) * (y1 - y3) - (y1 - y2) * (x1 - x3)) /
    interDenom x1 y1 x2 y2 x3 y3 x4 y4

/-- _linesIntersect: the parametric determinant segment test used by area
selection; a zero denominator (parallel or collinear segments) returns
false immediately. -/
def linesIntersect (x1 y1 x2 y2 x3 y3 x4 y4 : ℚ) : Bool :=
  let denom := interDenom x1 y1 x2 y2 x3 y3 x4 y4
  if denom = 0 then false
  else
    let t := interT x1 y1 x2 y2 x3 y3 x4 y4
    let u := interU x1 y1 x2 y2 x3 y3 x4 y4
    decide (0 ≤ t) && decide (t ≤ 1) && decide (0 ≤ u) && decide (u ≤ 1)

/-- _lineIntersectsRect: test the segment against the four edges of the
rectangle, in the source's top/right/bottom/left order. -/
def lineIntersectsRect (x1 y1 x2 y2 : ℚ) (rect : RectXYWH) : Bool :=
  linesIntersect x1 y1 x2 y2 rect.x rect.y (rect.x + rect.w) rect.y ||
  linesIntersect x1 y1 x2 y2 (rect.x + rect.w) rect.y (rect.x + rect.w) (rect.y + rect.h) ||
  linesIntersect x1 y1 x2 y2 (rect.x + rect.w) (rect.y + rect.h) rect.x (rect.y + rect.h) ||
  linesIntersect x1 y1 x2 y2 rect.x (rect.y + rect.h) rect.x rect.y

/-- Translate a panel by (dx, dy). -/
def translatePanel (dx dy : ℚ) (p : Panel) : Panel :=
  { p with x := p.x + dx, y := p.y + dy }

/-- Translate an obstacle by (dx, dy). -/
def translateObstacle (dx dy : ℚ) (o : Obstacle) : Obstacle :=
  { o with x := o.x + dx, y := o.y + dy }

/-- Translate a beam by (dx, dy): all four endpoint coordinates move. -/
def translateBeam (dx dy : ℚ) (b : Beam) : Beam :=
  { b with x1 := b.x1 + dx, y1 := b.y1 + dy, x2 := b.x2 + dx, y2 := b.y2 + dy }

/-- Translate a text item by (dx, dy). -/
def translateText (dx dy : ℚ) (t : TextItem) : TextItem :=
  { t with x := t.x + dx, y := t.y + dy }

/-- Apply a function to the element at one index of a list, leaving every
other element alone (the in-place update `arr[i] = f(arr[i])`). -/
def listModify (i : ℕ) (f : α → α) : List α → List α
  | [] => []
  | a :: l =>
    match i with
    | 0 => f a :: l
    | n + 1 => a :: listModify n f l

/-- The per-entry validation of _moveSelected: a selected panel's moved
rectangle must stay within the panel bounds, a selected beam's moved
endpoints within the construction bounds; obstacles and texts are
unconstrained.  A stale index (on which the source would throw) is
treated as passing; the theorems assume valid indices. -/
def selCheck (s : EditorState) (dx dy : ℚ) (e : SelEntry) : Bool :=
  match e.kind with
  | ElemKind.panel =>
    match s.panels.get? e.index with
    | some p =>
      isRectWithinPanelBounds s.panelBounds
        ⟨p.x + dx, p.y + dy, p.w, p.h⟩
    | none => true
  | ElemKind.obstacle => true
  | ElemKind.beam =>
    match s.beams.get? e.index with
    | some b =>
      isLineWithinConstructionBounds s.constructionBounds
        (b.x1 + dx) (b.y1 + dy) (b.x2 + dx) (b.y2 + dy)
    | none => true
  | ElemKind.text => true

/-- The mutation step of _moveSelected for one selection entry. -/
def applyMoveEntry (dx dy : ℚ) (s : EditorState) (e : SelEntry) : EditorState :=
  match e.kind with
  | ElemKind.panel =>
    { s with panels := listModify e.index (translatePanel dx dy) s.panels }
  | ElemKind.obstacle =>
    { s with obstacles := listModify e.index (translateObstacle dx dy) s.obstacles }
  | ElemKind.beam =>
    { s with beams := listModify e.index (translateBeam dx dy) s.beams }
  | ElemKind.text =>
    { s with texts := listModify e.index (translateText dx dy) s.texts }

/-- _moveSelected: no-op on an empty selection; when construction bounds
exist, validate every selected element first and reject the whole move on
any failure; otherwise translate every selected element in order. -/
def moveSelected (dx dy : ℚ) (s : EditorState) : EditorState :=
  if s.selectedElements = [] then s
  else if s.constructionBounds.isSome ∧
      ¬(s.selectedElements.all (selCheck s dx dy)) then s
  else s.selectedElements.foldl (applyMoveEntry dx dy) s

/-- The result record of createAutoStructure.  The human-readable message
is modelled by the two numbers it interpolates on failure: the required
length numBeams·spacing and the available structure length. -/
structure AutoStructureResult where
  success : Bool
  requiredLength : Option ℚ
  availableLength : Option ℚ
  structureDims : Option (ℚ × ℚ)
deriving DecidableEq, Repr

/-- createAutoStructure: synthesize a default terrace when none exists,
ensure both bounds, inset the structure rectangle by 5 on each side
(minimum 50 per side), reject when numBeams·spacing reaches the structure
length, else replace all beams by the 4-beam perimeter frame plus evenly
spaced parallel beams, stopping at the far edge. -/
def createAutoStructure (numBeams : ℕ) (spacing : ℚ) (profile : ℕ)
    (width height : Option ℚ) (s : EditorState) :
    AutoStructureResult × EditorState :=
  let s := if (getTerraceBounds s.terraceVertices).isNone then
      setRectangularTerrace (jsOr width 585) (jsOr height 388) s
    else s
  match getTerraceBounds s.terraceVertices with
  | none => (⟨false, none, none, none⟩, s)
  | some tb =>
    let s := if s.constructionBounds.isNone then
        { s with constructionBounds := some (calculateConstructionBounds tb 10) }
      else s
    let s := match s.constructionBounds, s.panelBounds with
      | some cb, none =>
        { s with panelBounds := some (calculatePanelBounds cb 40) }
      | _, _ => s
    let structureWidth := max 50 (tb.maxX - tb.minX - 2 * 5)
    let structureLength := max 50 (tb.maxY - tb.minY - 2 * 5)
    let totalBeamLength := (numBeams : ℚ) * spacing
    if 0 < numBeams ∧ structureLength ≤ totalBeamLength then
      (⟨false, some totalBeamLength, some structureLength,
        some (structureWidth, structureLength)⟩, s)
    else
      let centerX := (tb.minX + tb.maxX) / 2
      let centerY := (tb.minY + tb.maxY) / 2
      let startX := centerX - structureWidth / 2
      let startY := centerY - structureLength / 2
      let endX := startX + structureWidth
      let endY := startY + structureLength
      let mk := fun (x1 y1 x2 y2 : ℚ) =>
        (⟨x1, y1, x2, y2, profile, true⟩ : Beam)
      let perimeter :=
        [mk startX startY endX startY,
         mk endX startY endX endY,
         mk endX endY startX endY,
         mk startX endY startX startY]
      let parallels :=
        ((List.range numBeams).takeWhile
          (fun (i : ℕ) => decide (startY + ((i : ℚ) + 1) * spacing < endY))).map
          (fun (i : ℕ) =>
            mk startX (startY + ((i : ℚ) + 1) * spacing)
               endX (startY + ((i : ℚ) + 1) * spacing))
      (⟨true, none, none, some (structureWidth, structureLength)⟩,
       { s with beams := perimeter ++ parallels })

/-- The serializable record produced by exportData and accepted by the
importData routine.  Every field is optional there; exportData always
emits all of them. -/
structure ExportData where
  terraceVertices : Option (List Pt)
  constructionBounds : Option Bounds4
  panelBounds : Option Bounds4
  obstacles : Option (List Obstacle)
  beams : Option (List Beam)
  panels : Option (List Panel)
  texts : Option (List TextItem)
  panelConfig : Option PanelConfig
  textConfig : Option TextConfig
  scale : Option ℚ
deriving DecidableEq, Repr

/-- exportData: snapshot the element store, the bounds, the defaults and
the scale. -/
def exportData (s : EditorState) : ExportData :=
  { terraceVertices := some s.terraceVertices
    constructionBounds := s.constructionBounds
    panelBounds := s.panelBounds
    obstacles := some s.obstacles
    beams := some s.beams
    panels := some s.panels
    texts := some s.texts
    panelConfig := some s.panelConfig
    textConfig := some s.textConfig
    scale := some s.scale }

/-- The field-installation half of importData: install the record's
collections (missing ones default to empty), merge the config records
(merging a full record replaces the old one) and adopt a truthy
(nonzero) scale. -/
def importBase (d : ExportData) (s : EditorState) : EditorState :=
  { s with
    terraceVertices := d.terraceVertices.getD []
    constructionBounds := d.constructionBounds
    panelBounds := d.panelBounds
    obstacles := d.obstacles.getD []
    beams := d.beams.getD []
    panels := d.panels.getD []
    texts := d.texts.getD []
    panelConfig := d.panelConfig.getD s.panelConfig
    textConfig := d.textConfig.getD s.textConfig
    scale := match d.scale with
      | none => s.scale
      | some v => if v = 0 then s.scale else v }

/-- importData: install the record's fields, then recompute both bounds
from the terrace when either is absent and the terrace is valid. -/
def importData (d : ExportData) (s : EditorState) : EditorState :=
  let s1 := importBase d s
  if (s1.constructionBounds.isNone ∨ s1.panelBounds.isNone) ∧
      3 ≤ s1.terraceVertices.length then
    match getTerraceBounds s1.terraceVertices with
    | some bb =>
      { s1 with
        constructionBounds := some (calculateConstructionBounds bb 10)
        panelBounds :=
          some (calculatePanelBounds (calculateConstructionBounds bb 10) 40) }
    | none => s1
  else s1

/-- The pointInRect helper of _buildPanels (closed rectangle given as
min/max bounds). -/
def pointInRectB (x y : ℚ) (rect : Bounds4) : Bool :=
  decide (rect.minX ≤ x) && decide (x ≤ rect.maxX) &&
  decide (rect.minY ≤ y) && decide (y ≤ rect.maxY)

/-- The epsilon used by the orientation and on-segment helpers of
_buildPanels. -/
def segEps : ℚ := 1 / 1000000

/-- The orientation helper of _buildPanels: 0 collinear (within epsilon),
1 clockwise, 2 counterclockwise. -/
def orientationOf (a b cp : Pt) : ℕ :=
  let val := (b.y - a.y) * (cp.x - b.x) - (b.x - a.x) * (cp.y - b.y)
  if |val| ≤ segEps then 0 else if 0 < val then 1 else 2

/-- The onSegment helper of _buildPanels: c lies within the bounding box
of a and b, padded by epsilon. -/
def onSegmentOf (a b cp : Pt) : Bool :=
  decide (min a.x b.x - segEps ≤ cp.x) && decide (cp.x ≤ max a.x b.x + segEps) &&
  decide (min a.y b.y - segEps ≤ cp.y) && decide (cp.y ≤ max a.y b.y + segEps)

/-- The segmentsIntersect helper of _buildPanels: the orientation plus
on-segment test, robust to collinear overlap. -/
def segmentsIntersectOri (p1 p2 p3 p4 : Pt) : Bool :=
  let o1 := orientationOf p1 p2 p3
  let o2 := orientationOf p1 p2 p4
  let o3 := orientationOf p3 p4 p1
  let o4 := orientationOf p3 p4 p2
  (decide (o1 ≠ o2) && decide (o3 ≠ o4)) ||
  (decide (o1 = 0) && onSegmentOf p1 p2 p3) ||
  (decide (o2 = 0) && onSegmentOf p1 p2 p4) ||
  (decide (o3 = 0) && onSegmentOf p3 p4 p1) ||
  (decide (o4 = 0) && onSegmentOf p3 p4 p2)

/-- The segmentIntersectsRect helper of _buildPanels: an endpoint inside
the rectangle, or a crossing with one of its four edges. -/
def segmentIntersectsRect (x1 y1 x2 y2 : ℚ) (rect : Bounds4) : Bool :=
  pointInRectB x1 y1 rect || pointInRectB x2 y2 rect ||
  (let p1 : Pt := ⟨x1, y1⟩
   let p2 : Pt := ⟨x2, y2⟩
   let tl : Pt := ⟨rect.minX, rect.minY⟩
   let tr : Pt := ⟨rect.maxX, rect.minY⟩
   let br : Pt := ⟨rect.maxX, rect.maxY⟩
   let bl : Pt := ⟨rect.minX, rect.maxY⟩
   segmentsIntersectOri p1 p2 tl tr ||
   segmentsIntersectOri p1 p2 tr br ||
   segmentsIntersectOri p1 p2 br bl ||
   segmentsIntersectOri p1 p2 bl tl)

/-- The panel rectangle used by _buildPanels, with the real height
falling back to the projected height under JS truthiness. -/
def panelRectOf (p : Panel) : Bounds4 :=
  let realH := if p.realHeight = 0 then p.h else p.realHeight
  ⟨p.x, p.x + p.w, p.y, p.y + realH⟩

/-- The indices of the beams whose segment intersects the panel's
rectangle, in ascending order as collected by _buildPanels. -/
def panelIntersectingBeams (p : Panel) (beams : List Beam) : List ℕ :=
  (List.range beams.length).filter (fun i =>
    match beams.get? i with
    | some b => segmentIntersectsRect b.x1 b.y1 b.x2 b.y2 (panelRectOf p)
    | none => false)

/-- The squared point-to-segment distance; the source takes the square
root, which only rescales comparisons and never changes which beam is
nearest. -/
def distPointToSegSq (px py x1 y1 x2 y2 : ℚ) : ℚ :=
  let dx := x2 - x1
  let dy := y2 - y1
  if dx = 0 ∧ dy = 0 then (px - x1) ^ 2 + (py - y1) ^ 2
  else
    let t := ((px - x1) * dx + (py - y1) * dy) / (dx * dx + dy * dy)
    let cl := max 0 (min 1 t)
    (px - (x1 + cl * dx)) ^ 2 + (py - (y1 + cl * dy)) ^ 2

/-- _getNearestBeamIndex: scan the beams keeping the first index whose
distance from the panel's center strictly improves the minimum; none
models the source's −1 on an empty collection. -/
def getNearestBeamIndex (p : Panel) (beams : List Beam) : Option ℕ :=
  let cX := p.x + p.w / 2
  let cY := p.y + p.h / 2
  ((List.range beams.length).foldl (fun (acc : Option (ℕ × ℚ)) i =>
    match beams.get? i with
    | none => acc
    | some b =>
      let d := distPointToSegSq cX cY b.x1 b.y1 b.x2 b.y2
      match acc with
      | none => some (i, d)
      | some (j, dj) => if d < dj then some (i, d) else some (j, dj)) none).map
    (fun q => q.1)

/-- The effective tilt _buildPanels assigns to a panel, given the
resolved per-beam tilts: the fold keeping the largest intersecting
beam's tilt starting from 0, falling back to the nearest beam's tilt
when no beam intersects. -/
def panelEffectiveTilt (p : Panel) (beams : List Beam) (tilts : List ℚ) : ℚ :=
  let inter := panelIntersectingBeams p beams
  let inclRad := inter.foldl (fun acc i =>
    let r := tilts.getD i 0
    if acc < r then r else acc) 0
  if inter = [] then
    match getNearestBeamIndex p beams with
    | some idx => if idx < tilts.length then tilts.getD idx 0 else 0
    | none => 0
  else inclRad

/-- The initial editor state built by the constructor: empty collections,
no bounds, panel defaults 114 × 228 at 0° and 610 W, text defaults size
14, and scale `options.scale || 4`. -/
def initState (scaleOpt : Option ℚ) : EditorState :=
  { terraceVertices := []
    constructionBounds := none
    panelBounds := none
    obstacles := []
    beams := []
    panels := []
    texts := []
    tempPoints := []
    selectedElements := []
    panelConfig := ⟨114, 228, 0, 610⟩
    textConfig := ⟨0, 14⟩
    scale := jsOr scaleOpt 4 }

/-- States reachable through the modelled public operations of the 2D
editor core: construction, terrace creation and confirmation, clearing,
moving a selection, auto-structure generation, and replacing the
element collections, the temp points or the selection (placement,
deletion, paste and selection changes never touch the terrace, the
bounds or the scale, so they are modelled by one constructor covering
any rewrite of those components). -/
inductive Reachable : EditorState → Prop where
  | init (scaleOpt : Option ℚ) : Reachable (initState scaleOpt)
  | rectTerrace (w h : ℚ) (s : EditorState) :
      Reachable s → Reachable (setRectangularTerrace w h s)
  | confirm (s : EditorState) :
      Reachable s → Reachable (confirmTerrace s)
  | clear (s : EditorState) :
      Reachable s → Reachable (clearAll s)
  | move (dx dy : ℚ) (s : EditorState) :
      Reachable s → Reachable (moveSelected dx dy s)
  | autoStructure (numBeams : ℕ) (spacing : ℚ) (profile : ℕ)
      (width height : Option ℚ) (s : EditorState) :
      Reachable s →
      Reachable (createAutoStructure numBeams spacing profile width height s).2
  | elements (s : EditorState) (obstacles : List Obstacle)
      (beams : List Beam) (panels : List Panel) (texts : List TextItem)
      (tempPoints : List Pt) (selectedElements : List SelEntry) :
      Reachable s →
      Reachable { s with
        obstacles := obstacles, beams := beams, panels := panels,
        texts := texts, tempPoints := tempPoints,
        selectedElements := selectedElements }

/-- The minimum depth coordinate over the endpoints of every beam of a
collection, in terrace-centered coordinates, as the words of the spec's
depth-range sentence describe it. -/
def allBeamsMinDepth (beams : List Beam) (c : Pt) : Option ℚ :=
  match beams with
  | [] => none
  | b :: rest =>
    some (rest.foldl (fun a q => min a (min (q.y1 - c.y) (q.y2 - c.y)))
      (min (b.y1 - c.y) (b.y2 - c.y)))

/-- The maximum depth coordinate over the endpoints of every beam of a
collection, in terrace-centered coordinates. -/
def allBeamsMaxDepth (beams : List Beam) (c : Pt) : Option ℚ :=
  match beams with
  | [] => none
  | b :: rest =>
    some (rest.foldl (fun a q => max a (max (q.y1 - c.y) (q.y2 - c.y)))
      (max (b.y1 - c.y) (b.y2 - c.y)))


lemma getTerraceBounds_eq_none_iff (verts : List Pt) :
    getTerraceBounds verts = none ↔ verts.length < 3 := by
  unfold getTerraceBounds
  split_ifs with h
  · simp [h]
  · cases verts with
    | nil => exact absurd (by norm_num) h
    | cons v vs =>
      simp only [List.length_cons] at h ⊢
      simp
      omega

lemma getTerraceBounds_some_of_ge (verts : List Pt)
    (h3 : 3 ≤ verts.length) : ∃ bb, getTerraceBounds verts = some bb := by
  cases hm : getTerraceBounds verts with
  | none =>
    rw [getTerraceBounds_eq_none_iff] at hm
    omega
  | some bb => exact ⟨bb, rfl⟩

lemma nestingOfCalc (bb : Bounds4) :
    boundsSubset bb (calculateConstructionBounds bb 10) ∧
    boundsSubset (calculateConstructionBounds bb 10)
      (calculatePanelBounds (calculateConstructionBounds bb 10) 40) := by
  unfold boundsSubset calculateConstructionBounds calculatePanelBounds
  dsimp only
  exact ⟨⟨by linarith, by linarith, by linarith, by linarith⟩,
    ⟨by linarith, by linarith, by linarith, by linarith⟩⟩

lemma confirmTerrace_eq (s : EditorState) (bb : Bounds4)
    (h3 : 3 ≤ s.tempPoints.length)
    (hm : getTerraceBounds s.tempPoints = some bb) :
    confirmTerrace s =
      { s with
        terraceVertices := s.tempPoints
        constructionBounds := some (calculateConstructionBounds bb 10)
        panelBounds :=
          some (calculatePanelBounds (calculateConstructionBounds bb 10) 40)
        tempPoints := [] } := by
  unfold confirmTerrace
  rw [if_pos h3]
  simp only [hm]

lemma setRectangularTerrace_eq (w h : ℚ) (s : EditorState) (bb : Bounds4)
    (hm : getTerraceBounds [⟨0, 0⟩, ⟨w, 0⟩, ⟨w, h⟩, ⟨0, h⟩] = some bb) :
    setRectangularTerrace w h s =
      { s with
        terraceVertices := [⟨0, 0⟩, ⟨w, 0⟩, ⟨w, h⟩, ⟨0, h⟩]
        constructionBounds := some (calculateConstructionBounds bb 10)
        panelBounds :=
          some (calculatePanelBounds (calculateConstructionBounds bb 10) 40) } := by
  unfold setRectangularTerrace
  simp only [hm]

lemma importData_eq_of_recompute (d : ExportData) (s : EditorState)
    (bb : Bounds4)
    (hmiss : (importBase d s).constructionBounds.isNone ∨
      (importBase d s).panelBounds.isNone)
    (h3 : 3 ≤ (importBase d s).terraceVertices.length)
    (hm : getTerraceBounds (importBase d s).terraceVertices = some bb) :
    importData d s =
      { importBase d s with
        constructionBounds := some (calculateConstructionBounds bb 10)
        panelBounds :=
          some (calculatePanelBounds (calculateConstructionBounds bb 10) 40) } := by
  unfold importData
  rw [if_pos ⟨hmiss, h3⟩]
  simp only [hm]

lemma importData_eq_of_no_recompute (d : ExportData) (s : EditorState)
    (hk : ¬(((importBase d s).constructionBounds.isNone ∨
      (importBase d s).panelBounds.isNone) ∧
      3 ≤ (importBase d s).terraceVertices.length)) :
    importData d s = importBase d s := by
  unfold importData
  rw [if_neg hk]

/-- C4: for every terrace polygon with at least 3 vertices, after bounds
recomputation by terrace confirmation, rectangular-terrace generation
or re-import (construction margin 10, panel margin 40), the
terrace bounding box is contained in the construction bounds, which are
contained in the panel bounds. -/
theorem c4_bounds_nesting (s : EditorState) (d : ExportData) :
    (3 ≤ s.tempPoints.length →
      ∀ bb cb pb,
        getTerraceBounds (confirmTerrace s).terraceVertices = some bb →
        (confirmTerrace s).constructionBounds = some cb →
        (confirmTerrace s).panelBounds = some pb →
        boundsSubset bb cb ∧ boundsSubset cb pb) ∧
    (∀ w h bb cb pb,
        getTerraceBounds (setRectangularTerrace w h s).terraceVertices = some bb →
        (setRectangularTerrace w h s).constructionBounds = some cb →
        (setRectangularTerrace w h s).panelBounds = some pb →
        boundsSubset bb cb ∧ boundsSubset cb pb) ∧
    ((d.constructionBounds = none ∨ d.panelBounds = none) →
      ∀ bb cb pb,
        getTerraceBounds (importData d s).terraceVertices = some bb →
        (importData d s).constructionBounds = some cb →
        (importData d s).panelBounds = some pb →
        boundsSubset bb cb ∧ boundsSubset cb pb) := by
  refine ⟨?_, ?_, ?_⟩
  · intro h3 bb cb pb hbb hcb hpb
    obtain ⟨bb0, hm⟩ := getTerraceBounds_some_of_ge s.tempPoints h3
    rw [confirmTerrace_eq s bb0 h3 hm] at hbb hcb hpb
    simp only at hbb hcb hpb
    rw [hm] at hbb
    obtain rfl : bb0 = bb := by simpa using hbb
    obtain rfl : cb = calculateConstructionBounds bb0 10 := by
      simpa using hcb.symm
    obtain rfl :
        pb = calculatePanelBounds (calculateConstructionBounds bb0 10) 40 := by
      simpa using hpb.symm
    exact nestingOfCalc bb0
  · intro w h bb cb pb hbb hcb hpb
    obtain ⟨bb0, hm⟩ := getTerraceBounds_some_of_ge
      [(⟨0, 0⟩ : Pt), ⟨w, 0⟩, ⟨w, h⟩, ⟨0, h⟩] (by simp)
    rw [setRectangularTerrace_eq w h s bb0 hm] at hbb hcb hpb
    simp only at hbb hcb hpb
    rw [hm] at hbb
    obtain rfl : bb0 = bb := by simpa using hbb
    obtain rfl : cb = calculateConstructionBounds bb0 10 := by
      simpa using hcb.symm
    obtain rfl :
        pb = calculatePanelBounds (calculateConstructionBounds bb0 10) 40 := by
      simpa using hpb.symm
    exact nestingOfCalc bb0
  · intro hmiss bb cb pb hbb hcb hpb
    have hmiss' : (importBase d s).constructionBounds.isNone ∨
        (importBase d s).panelBounds.isNone := by
      rcases hmiss with hm1 | hm1
      · left
        unfold importBase
        simp [hm1]
      · right
        unfold importBase
        simp [hm1]
    by_cases h3 : 3 ≤ (importBase d s).terraceVertices.length
    · obtain ⟨bb0, hm⟩ :=
        getTerraceBounds_some_of_ge (importBase d s).terraceVertices h3
      rw [importData_eq_of_recompute d s bb0 hmiss' h3 hm] at hbb hcb hpb
      simp only at hbb hcb hpb
      rw [hm] at hbb
      obtain rfl : bb0 = bb := by simpa using hbb
      obtain rfl : cb = calculateConstructionBounds bb0 10 := by
        simpa using hcb.symm
      obtain rfl :
          pb = calculatePanelBounds (calculateConstructionBounds bb0 10) 40 := by
        simpa using hpb.symm
      exact nestingOfCalc bb0
    · exfalso
      rw [importData_eq_of_no_recompute d s (by
        intro hk
        exact h3 hk.2)] at hbb hcb hpb
      have : getTerraceBounds (importBase d s).terraceVertices = none := by
        rw [getTerraceBounds_eq_none_iff]
        omega
      rw [this] at hbb
      simp at hbb

/-- Witness for c4_bounds_nesting: the 585 × 388 rectangle of the spec's
concrete scenario yields construction bounds (−10,−10)–(595,398) inside
panel bounds (−50,−50)–(635,438). -/
theorem c4_bounds_nesting_witness :
    boundsSubset ⟨0, 585, 0, 388⟩ ⟨-10, 595, -10, 398⟩ ∧
    boundsSubset ⟨-10, 595, -10, 398⟩ ⟨-50, 635, -50, 438⟩ := by
  refine (c4_bounds_nesting (initState none)
    (exportData (initState none))).2.1 585 388
    ⟨0, 585, 0, 388⟩ ⟨-10, 595, -10, 398⟩ ⟨-50, 635, -50, 438⟩ ?_ ?_ ?_
  · simp [setRectangularTerrace, getTerraceBounds, initState,
      calculateConstructionBounds, calculatePanelBounds, min_def, max_def]
  · simp [setRectangularTerrace, getTerraceBounds, initState,
      calculateConstructionBounds, calculatePanelBounds, min_def, max_def]
    norm_num
  · simp [setRectangularTerrace, getTerraceBounds, initState,
      calculateConstructionBounds, calculatePanelBounds, min_def, max_def]
    norm_num

lemma range_some_ne_nil (beams : List Beam) (c : Pt) (incl : Inclination)
    (r : RangeInfo) (h : getInclinationRange beams c incl = some r) :
    beams ≠ [] := by
  intro he
  subst he
  simp [getInclinationRange] at h

lemma getStructureBounds_cons (b : Beam) (bs : List Beam) (verts : List Pt)
    (c : Pt) : ∃ sb, getStructureBounds (b :: bs) verts c = some sb := by
  unfold getStructureBounds
  simp

/-- C2: the getHeightAtZ closure of _buildBeams and the one of
_buildPanels are extensionally equal; on a degenerate span or zero tilt
both return the flat base height, and otherwise base + span·tan(tilt)·t
with t clamped to [0,1] and flipped on an inverted profile. -/
theorem c2_heightAt_shared (tanQ : ℚ → ℚ) (beams : List Beam) (c : Pt)
    (incl : Inclination) (height z radians : ℚ) :
    buildBeamsHeightAtZ tanQ beams c incl height z radians =
      buildPanelsHeightAtZ tanQ beams c incl height z radians ∧
    (beams = [] →
      buildBeamsHeightAtZ tanQ beams c incl height z radians = height) ∧
    (∀ r, getInclinationRange beams c incl = some r →
      ((r.maxZ - r.minZ = 0 ∨ radians = 0) →
        buildBeamsHeightAtZ tanQ beams c incl height z radians = height) ∧
      (r.maxZ - r.minZ ≠ 0 → radians ≠ 0 →
        buildBeamsHeightAtZ tanQ beams c incl height z radians =
          height + (r.maxZ - r.minZ) * tanQ radians *
            (max 0 (min 1 (if r.invert = true
              then 1 - (z - r.minZ) / (r.maxZ - r.minZ)
              else (z - r.minZ) / (r.maxZ - r.minZ)))))) := by
  refine ⟨rfl, ?_, ?_⟩
  · intro he
    subst he
    rfl
  · intro r hR
    have hne : beams ≠ [] := range_some_ne_nil beams c incl r hR
    obtain ⟨b, bs, rfl⟩ : ∃ b bs, beams = b :: bs := by
      cases beams with
      | nil => exact absurd rfl hne
      | cons b bs => exact ⟨b, bs, rfl⟩
    obtain ⟨sb, hB⟩ := getStructureBounds_cons b bs [] c
    constructor
    · intro hdeg
      unfold buildBeamsHeightAtZ
      rw [hR, hB]
      simp only [Option.isNone_some]
      rw [if_pos]
      simp only [Bool.false_eq_true, false_or]
      exact hdeg
    · intro hspan hrad
      unfold buildBeamsHeightAtZ
      rw [hR, hB]
      simp only [Option.isNone_some]
      rw [if_neg (by
        simp only [Bool.false_eq_true, false_or]
        rintro (h1 | h2)
        · exact hspan h1
        · exact hrad h2)]

/-- Witness for c2_heightAt_shared: with no beams both closures return the
base height 120; with a single flat beam the resolved span is degenerate
and the base height is returned as well. -/
theorem c2_heightAt_shared_witness :
    buildBeamsHeightAtZ (fun q => q) [] ⟨0, 0⟩ ⟨20, 0, -1⟩ 120 5 1 = 120 ∧
    buildBeamsHeightAtZ (fun q => q) [⟨0, 0, 10, 0, 0, false⟩] ⟨0, 0⟩
      ⟨20, 0, -1⟩ 120 5 1 = 120 := by
  constructor
  · exact (c2_heightAt_shared (fun q => q) [] ⟨0, 0⟩ ⟨20, 0, -1⟩ 120 5 1).2.1 rfl
  · refine ((c2_heightAt_shared (fun q => q) [⟨0, 0, 10, 0, 0, false⟩] ⟨0, 0⟩
      ⟨20, 0, -1⟩ 120 5 1).2.2 ⟨0, 0, 0, 0, false⟩ ?_).1 (Or.inl (by norm_num))
    simp [getInclinationRange, clampIndex, min_def, max_def, List.range']

/-- C8 counterexample: the segments (0,0)–(10,0) and (2,0)–(8,0) overlap
(the point (2,0) lies on both, at parameter 1/5 on the first and 0 on the
second), yet the determinant test used by area selection reports no
intersection, and a beam lying on the top edge of a selection rectangle
is likewise missed by the rectangle test. -/
theorem c8_counterexample :
    ((0 : ℚ) ≤ 1/5 ∧ (1/5 : ℚ) ≤ 1 ∧
      (0 : ℚ) + (1/5) * (10 - 0) = 2 + 0 * (8 - 2) ∧
      (0 : ℚ) + (1/5) * (0 - 0) = 0 + 0 * (0 - 0)) ∧
    linesIntersect 0 0 10 0 2 0 8 0 = false ∧
    lineIntersectsRect 2 0 8 0 ⟨0, 0, 10, 10⟩ = false := by
  refine ⟨⟨by norm_num, by norm_num, by norm_num, by norm_num⟩, ?_, ?_⟩
  · simp [linesIntersect, interDenom]
  · simp [lineIntersectsRect, linesIntersect, interDenom, interT, interU]
    norm_num

/-- C8 corrected: the segment test of area selection is the parametric
determinant test, not the orientation/on-segment test: a zero denominator
(all parallel and collinear pairs, overlapping ones included) yields
false, and a true answer means the two parametric points coincide with
parameters inside [0,1]. -/
theorem c8_amended (x1 y1 x2 y2 x3 y3 x4 y4 : ℚ) :
    (interDenom x1 y1 x2 y2 x3 y3 x4 y4 = 0 →
      linesIntersect x1 y1 x2 y2 x3 y3 x4 y4 = false) ∧
    (linesIntersect x1 y1 x2 y2 x3 y3 x4 y4 = true →
      0 ≤ interT x1 y1 x2 y2 x3 y3 x4 y4 ∧
      interT x1 y1 x2 y2 x3 y3 x4 y4 ≤ 1 ∧
      0 ≤ interU x1 y1 x2 y2 x3 y3 x4 y4 ∧
      interU x1 y1 x2 y2 x3 y3 x4 y4 ≤ 1 ∧
      x1 + interT x1 y1 x2 y2 x3 y3 x4 y4 * (x2 - x1) =
        x3 + interU x1 y1 x2 y2 x3 y3 x4 y4 * (x4 - x3) ∧
      y1 + interT x1 y1 x2 y2 x3 y3 x4 y4 * (y2 - y1) =
        y3 + interU x1 y1 x2 y2 x3 y3 x4 y4 * (y4 - y3)) := by
  constructor
  · intro h
    simp [linesIntersect, h]
  · intro h
    by_cases hd : interDenom x1 y1 x2 y2 x3 y3 x4 y4 = 0
    · simp [linesIntersect, hd] at h
    · unfold linesIntersect at h
      rw [if_neg hd] at h
      simp only [Bool.and_eq_true, decide_eq_true_eq] at h
      obtain ⟨⟨⟨ht0, ht1⟩, hu0⟩, hu1⟩ := h
      refine ⟨ht0, ht1, hu0, hu1, ?_, ?_⟩
      · unfold interT interU
        field_simp
        unfold interDenom
        ring
      · unfold interT interU
        field_simp
        unfold interDenom
        ring

/-- Witness for c8_amended: the crossing diagonals (0,0)–(2,2) and
(0,2)–(2,0) are reported as intersecting, and the parametric points of
both segments coincide. -/
theorem c8_amended_witness :
    0 ≤ interT 0 0 2 2 0 2 2 0 ∧
    interT 0 0 2 2 0 2 2 0 ≤ 1 ∧
    0 ≤ interU 0 0 2 2 0 2 2 0 ∧
    interU 0 0 2 2 0 2 2 0 ≤ 1 ∧
    (0 : ℚ) + interT 0 0 2 2 0 2 2 0 * (2 - 0) =
      0 + interU 0 0 2 2 0 2 2 0 * (2 - 0) ∧
    (0 : ℚ) + interT 0 0 2 2 0 2 2 0 * (2 - 0) =
      2 + interU 0 0 2 2 0 2 2 0 * (0 - 2) := by
  exact (c8_amended 0 0 2 2 0 2 2 0).2 (by
    simp [linesIntersect, interDenom, interT, interU]
    norm_num)

lemma clampIndex_nonneg (n : ℕ) (raw : ℤ) : 0 ≤ clampIndex n raw := by
  unfold clampIndex
  omega

lemma clampIndex_le (n : ℕ) (raw : ℤ) (h : 1 ≤ n) :
    clampIndex n raw ≤ (n : ℤ) - 1 := by
  unfold clampIndex
  omega

lemma clampIndex_toNat_lt (n : ℕ) (raw : ℤ) (h : 1 ≤ n) :
    (clampIndex n raw).toNat < n := by
  unfold clampIndex
  omega

lemma clampIndex_last (n : ℕ) (h : 1 ≤ n) :
    clampIndex n ((n : ℤ) - 1) = (n : ℤ) - 1 := by
  unfold clampIndex
  omega

lemma filterMap_get_range' (l : List α) :
    ∀ n k, n = l.length - k →
      (List.range' k n).filterMap (fun i => l.get? i) = l.drop k := by
  intro n
  induction n with
  | zero =>
    intro k h
    have : l.length ≤ k := by omega
    simp [List.drop_eq_nil_of_le this]
  | succ n ih =>
    intro k h
    have hk : k < l.length := by omega
    have h1 : List.range' k (n + 1) = k :: List.range' (k + 1) n := by
      simp [List.range']
    rw [h1, List.filterMap_cons]
    have h2 : l.get? k = some l[k] := by
      simp [List.get?_eq_getElem?, List.getElem?_eq_getElem hk]
    rw [h2, ih (k + 1) (by omega), List.drop_eq_getElem_cons hk]

lemma range_neg_one (beams : List Beam) (c : Pt) (incl : Inclination)
    (hne : beams ≠ []) (hE : incl.endBeam = -1) :
    getInclinationRange beams c incl =
      match beams.drop (clampIndex beams.length incl.startBeam).toNat with
      | [] => none
      | b0 :: rest =>
        some { startIndex := (clampIndex beams.length incl.startBeam).toNat
               endIndex := beams.length - 1
               minZ := rest.foldl
                 (fun a q => min a (min (q.y1 - c.y) (q.y2 - c.y)))
                 (min (b0.y1 - c.y) (b0.y2 - c.y))
               maxZ := rest.foldl
                 (fun a q => max a (max (q.y1 - c.y) (q.y2 - c.y)))
                 (max (b0.y1 - c.y) (b0.y2 - c.y))
               invert := false } := by
  cases beams with
  | nil => exact absurd rfl hne
  | cons b bs =>
    have hn : 1 ≤ (b :: bs).length := by simp
    have hle := clampIndex_le (b :: bs).length incl.startBeam hn
    have hge := clampIndex_nonneg (b :: bs).length incl.startBeam
    unfold getInclinationRange
    simp only [hE, if_pos]
    rw [clampIndex_last _ hn]
    rw [min_eq_left hle, max_eq_right hle]
    have h3 : ((((b :: bs).length : ℤ) - 1).toNat + 1 -
        (clampIndex (b :: bs).length incl.startBeam).toNat) =
        (b :: bs).length - (clampIndex (b :: bs).length incl.startBeam).toNat := by
      omega
    rw [h3]
    rw [filterMap_get_range' (b :: bs) _ _ rfl]
    have h4 : (((b :: bs).length : ℤ) - 1).toNat = (b :: bs).length - 1 := by
      omega
    rw [h4]
    have h5 : decide ((((b :: bs).length : ℤ) - 1) <
        clampIndex (b :: bs).length incl.startBeam) = false :=
      decide_eq_false (not_lt.mpr hle)
    rw [h5]

lemma range_not_neg_one (beams : List Beam) (c : Pt) (incl : Inclination)
    (hne : beams ≠ []) (hE : incl.endBeam ≠ -1) :
    ∃ sb eb,
      beams.get? (clampIndex beams.length incl.startBeam).toNat = some sb ∧
      beams.get? (clampIndex beams.length incl.endBeam).toNat = some eb ∧
      getInclinationRange beams c incl =
        some
          { startIndex := (min (clampIndex beams.length incl.startBeam)
              (clampIndex beams.length incl.endBeam)).toNat
            endIndex := (max (clampIndex beams.length incl.startBeam)
              (clampIndex beams.length incl.endBeam)).toNat
            minZ := min (min (sb.y1 - c.y) (sb.y2 - c.y))
              (min (eb.y1 - c.y) (eb.y2 - c.y))
            maxZ := max (max (sb.y1 - c.y) (sb.y2 - c.y))
              (max (eb.y1 - c.y) (eb.y2 - c.y))
            invert := decide (clampIndex beams.length incl.endBeam <
              clampIndex beams.length incl.startBeam) } := by
  cases beams with
  | nil => exact absurd rfl hne
  | cons b bs =>
    have hn : 1 ≤ (b :: bs).length := by simp
    have hks := clampIndex_toNat_lt (b :: bs).length incl.startBeam hn
    have hke := clampIndex_toNat_lt (b :: bs).length incl.endBeam hn
    have h1 : (b :: bs).get? (clampIndex (b :: bs).length incl.startBeam).toNat =
        some ((b :: bs)[(clampIndex (b :: bs).length incl.startBeam).toNat]) := by
      simp [List.get?_eq_getElem?, List.getElem?_eq_getElem hks]
    have h2 : (b :: bs).get? (clampIndex (b :: bs).length incl.endBeam).toNat =
        some ((b :: bs)[(clampIndex (b :: bs).length incl.endBeam).toNat]) := by
      simp [List.get?_eq_getElem?, List.getElem?_eq_getElem hke]
    refine ⟨_, _, h1, h2, ?_⟩
    unfold getInclinationRange
    simp only [if_neg hE]
    rw [h1, h2]

lemma range_some_of_ne_nil (beams : List Beam) (c : Pt) (incl : Inclination)
    (hne : beams ≠ []) : ∃ r, getInclinationRange beams c incl = some r := by
  have hn : 1 ≤ beams.length := by
    cases beams with
    | nil => exact absurd rfl hne
    | cons b bs => simp
  by_cases hE : incl.endBeam = -1
  · rw [range_neg_one beams c incl hne hE]
    have hk := clampIndex_toNat_lt beams.length incl.startBeam hn
    rw [List.drop_eq_getElem_cons hk]
    exact ⟨_, rfl⟩
  · obtain ⟨sb, eb, h1, h2, h3⟩ := range_not_neg_one beams c incl hne hE
    exact ⟨_, h3⟩

/-- C10: resolving an inclination range is total: the request indices are
clamped into [0, beams.length − 1] before any access, the result is none
exactly on an empty beam collection, and the invert flag is set exactly
when the clamped end index is strictly below the clamped start index —
hence never with endBeam = −1. -/
theorem c10_range_total (beams : List Beam) (c : Pt) (incl : Inclination) :
    (getInclinationRange beams c incl = none ↔ beams = []) ∧
    (∀ r, getInclinationRange beams c incl = some r →
      (r.invert = true ↔
        clampIndex beams.length
            (if incl.endBeam = -1 then (beams.length : ℤ) - 1
             else incl.endBeam) <
          clampIndex beams.length incl.startBeam) ∧
      (incl.endBeam = -1 → r.invert = false)) := by
  constructor
  · constructor
    · intro h
      by_contra hne
      obtain ⟨r, hr⟩ := range_some_of_ne_nil beams c incl hne
      rw [hr] at h
      simp at h
    · intro h
      subst h
      simp [getInclinationRange]
  · intro r hr
    have hne : beams ≠ [] := range_some_ne_nil beams c incl r hr
    have hn : 1 ≤ beams.length := by
      cases beams with
      | nil => exact absurd rfl hne
      | cons b bs => simp
    have hle := clampIndex_le beams.length incl.startBeam hn
    by_cases hE : incl.endBeam = -1
    · rw [range_neg_one beams c incl hne hE] at hr
      have hk := clampIndex_toNat_lt beams.length incl.startBeam hn
      rw [List.drop_eq_getElem_cons hk] at hr
      have hrv : r.invert = false := by
        have := hr.symm
        simp only [Option.some.injEq] at this
        rw [this]
      refine ⟨?_, fun _ => hrv⟩
      rw [hrv]
      simp only [Bool.false_eq_true, false_iff]
      rw [if_pos hE, clampIndex_last beams.length hn]
      exact not_lt.mpr hle
    · obtain ⟨sb, eb, h1, h2, h3⟩ := range_not_neg_one beams c incl hne hE
      rw [h3] at hr
      have hrv : r.invert = decide (clampIndex beams.length incl.endBeam <
          clampIndex beams.length incl.startBeam) := by
        have := hr.symm
        simp only [Option.some.injEq] at this
        rw [this]
      refine ⟨?_, fun hE2 => absurd hE2 hE⟩
      rw [hrv, if_neg hE]
      simp

/-- Witness for c10_range_total: on two concrete beams with startBeam = 1
and endBeam = −1 the resolved range exists and its invert flag is false,
and the empty collection resolves to none. -/
theorem c10_range_total_witness :
    (RangeInfo.invert ⟨1, 1, 100, 100, false⟩ = false) ∧
    getInclinationRange [] ⟨0, 0⟩ ⟨20, 1, -1⟩ = none := by
  constructor
  · exact ((c10_range_total
      [⟨0, 0, 10, 0, 0, false⟩, ⟨0, 100, 10, 100, 0, false⟩]
      ⟨0, 0⟩ ⟨20, 1, -1⟩).2 ⟨1, 1, 100, 100, false⟩ (by
        simp [getInclinationRange, clampIndex, min_def, max_def,
          List.range'])).2 rfl
  · exact (c10_range_total [] ⟨0, 0⟩ ⟨20, 1, -1⟩).1.mpr rfl

/-- C7 counterexample: two beams at depths 0 and 100 with
startBeamIndex = 1 and endBeamIndex = −1 resolve to the range
[100, 100], not to the whole collection's depth extent [0, 100] — the
resolved range is not independent of startBeamIndex. -/
theorem c7_counterexample :
    getInclinationRange [⟨0, 0, 10, 0, 0, false⟩, ⟨0, 100, 10, 100, 0, false⟩]
      ⟨0, 0⟩ ⟨20, 1, -1⟩ = some ⟨1, 1, 100, 100, false⟩ ∧
    allBeamsMinDepth [⟨0, 0, 10, 0, 0, false⟩, ⟨0, 100, 10, 100, 0, false⟩]
      ⟨0, 0⟩ = some 0 ∧
    (100 : ℚ) ≠ 0 := by
  refine ⟨?_, ?_, by norm_num⟩
  · simp [getInclinationRange, clampIndex, min_def, max_def, List.range']
  · simp [allBeamsMinDepth, min_def]

/-- C7 corrected: with endBeamIndex = −1 the resolved depth range spans
the beams from the clamped startBeamIndex through the last beam (the
whole collection exactly when startBeamIndex ≤ 0), not every beam
unconditionally. -/
theorem c7_amended (beams : List Beam) (c : Pt) (incl : Inclination)
    (hne : beams ≠ []) (hE : incl.endBeam = -1) :
    ∃ r, getInclinationRange beams c incl = some r ∧
      allBeamsMinDepth
        (beams.drop (clampIndex beams.length incl.startBeam).toNat) c =
        some r.minZ ∧
      allBeamsMaxDepth
        (beams.drop (clampIndex beams.length incl.startBeam).toNat) c =
        some r.maxZ ∧
      (incl.startBeam ≤ 0 →
        allBeamsMinDepth beams c = some r.minZ ∧
        allBeamsMaxDepth beams c = some r.maxZ) := by
  cases beams with
  | nil => exact absurd rfl hne
  | cons b bs =>
    have hn : 1 ≤ (b :: bs).length := by simp
    have hk := clampIndex_toNat_lt (b :: bs).length incl.startBeam hn
    rw [range_neg_one (b :: bs) c incl hne hE]
    rw [List.drop_eq_getElem_cons hk]
    refine ⟨_, rfl, ?_, ?_, ?_⟩
    · rfl
    · rfl
    · intro hs
      have hk0 : (clampIndex (bs.length + 1) incl.startBeam).toNat = 0 := by
        unfold clampIndex
        omega
      refine ⟨?_, ?_⟩ <;>
        simp [hk0, allBeamsMinDepth, allBeamsMaxDepth]

/-- Witness for c7_amended: with startBeam = 0 and endBeam = −1 over two
concrete beams the resolved range spans the whole collection. -/
theorem c7_amended_witness :
    ∃ r, getInclinationRange
        ([⟨0, 0, 10, 0, 0, false⟩, ⟨0, 100, 10, 100, 0, false⟩] : List Beam)
        ⟨0, 0⟩ ⟨20, 0, -1⟩ = some r ∧
      allBeamsMinDepth
        (([⟨0, 0, 10, 0, 0, false⟩, ⟨0, 100, 10, 100, 0, false⟩] : List Beam).drop
          (clampIndex
            ([⟨0, 0, 10, 0, 0, false⟩,
              ⟨0, 100, 10, 100, 0, false⟩] : List Beam).length
            (Inclination.startBeam ⟨20, 0, -1⟩)).toNat) ⟨0, 0⟩ =
        some r.minZ ∧
      allBeamsMaxDepth
        (([⟨0, 0, 10, 0, 0, false⟩, ⟨0, 100, 10, 100, 0, false⟩] : List Beam).drop
          (clampIndex
            ([⟨0, 0, 10, 0, 0, false⟩,
              ⟨0, 100, 10, 100, 0, false⟩] : List Beam).length
            (Inclination.startBeam ⟨20, 0, -1⟩)).toNat) ⟨0, 0⟩ =
        some r.maxZ ∧
      (Inclination.startBeam ⟨20, 0, -1⟩ ≤ 0 →
        allBeamsMinDepth
          ([⟨0, 0, 10, 0, 0, false⟩, ⟨0, 100, 10, 100, 0, false⟩] : List Beam)
          ⟨0, 0⟩ = some r.minZ ∧
        allBeamsMaxDepth
          ([⟨0, 0, 10, 0, 0, false⟩, ⟨0, 100, 10, 100, 0, false⟩] : List Beam)
          ⟨0, 0⟩ = some r.maxZ) :=
  c7_amended _ _ _ (by simp) rfl

lemma get?_lt (l : List α) (i : ℕ) (a : α) (h : l.get? i = some a) :
    i < l.length := by
  by_contra hge
  rw [List.get?_eq_getElem?] at h
  rw [List.getElem?_eq_none (by omega)] at h
  exact Option.noConfusion h

lemma mem_inclinationRangeIndices (beams : List Beam) (c : Pt)
    (incl : Inclination) (r : RangeInfo) (i : ℕ) (b : Beam)
    (hr : getInclinationRange beams c incl = some r)
    (hb : beams.get? i = some b) :
    i ∈ inclinationRangeIndices beams c incl ↔ beamInRange r c b = true := by
  have hi := get?_lt beams i b hb
  unfold inclinationRangeIndices
  rw [hr]
  rw [List.mem_filter]
  rw [hb]
  simp [List.mem_range, hi]

lemma calcIncl_get? (piQ : ℚ) (beams : List Beam) (c : Pt)
    (incl : Inclination) (i : ℕ) (b : Beam)
    (hb : beams.get? i = some b) :
    (calculateBeamInclinations piQ beams c incl).get? i =
      some (
        if (inclinationRangeIndices beams c incl).contains i then
          ⟨incl.degrees * piQ / 180, true⟩
        else
          if (inclinationRangeIndices beams c incl).any (fun j =>
              decide (j < beams.length) &&
              match beams.get? j with
              | some bj => beamsConnected b bj
              | none => false) then
            if isFrameBeam beams b then ⟨incl.degrees * piQ / 180, true⟩
            else ⟨incl.degrees * piQ / 180 * (1/4), false⟩
          else ⟨0, false⟩) := by
  have hi := get?_lt beams i b hb
  obtain ⟨bh, bt, rfl⟩ : ∃ bh bt, beams = bh :: bt := by
    cases beams with
    | nil => simp at hi
    | cons bh bt => exact ⟨bh, bt, rfl⟩
  unfold calculateBeamInclinations
  rw [List.get?_eq_getElem?, List.getElem?_map, List.getElem?_range (by simpa using hi)]
  simp only [Option.map_some']
  rw [hb]

theorem c6_connected_tilt (piQ : ℚ) (beams : List Beam) (c : Pt)
    (incl : Inclination) (r : RangeInfo) (i : ℕ) (b : Beam)
    (hr : getInclinationRange beams c incl = some r)
    (hb : beams.get? i = some b)
    (hnr : beamInRange r c b = false) :
    ((∃ j bj, j ∈ inclinationRangeIndices beams c incl ∧
        beams.get? j = some bj ∧ beamsConnected b bj = true) →
      (isFrameBeam beams b = true →
        (calculateBeamInclinations piQ beams c incl).get? i =
          some ⟨incl.degrees * piQ / 180, true⟩) ∧
      (isFrameBeam beams b = false →
        (calculateBeamInclinations piQ beams c incl).get? i =
          some ⟨incl.degrees * piQ / 180 * (1/4), false⟩)) ∧
    ((¬∃ j bj, j ∈ inclinationRangeIndices beams c incl ∧
        beams.get? j = some bj ∧ beamsConnected b bj = true) →
      (calculateBeamInclinations piQ beams c incl).get? i =
        some ⟨0, false⟩) := by
  have hi := get?_lt beams i b hb
  have hmem : ¬ i ∈ inclinationRangeIndices beams c incl := by
    rw [mem_inclinationRangeIndices beams c incl r i b hr hb, hnr]
    simp
  have hcont : (inclinationRangeIndices beams c incl).contains i = false := by
    simp [hmem]
  constructor
  · rintro ⟨j, bj, hj, hbj, hconn⟩
    have hjlen : j < beams.length := get?_lt beams j bj hbj
    have hany : (inclinationRangeIndices beams c incl).any (fun j =>
        decide (j < beams.length) &&
        match beams.get? j with
        | some bj => beamsConnected b bj
        | none => false) = true := by
      rw [List.any_eq_true]
      refine ⟨j, hj, ?_⟩
      rw [hbj]
      simp [hjlen, hconn]
    constructor
    · intro hfr
      rw [calcIncl_get? piQ beams c incl i b hb, hcont, hany]
      simp [hfr]
    · intro hfr
      rw [calcIncl_get? piQ beams c incl i b hb, hcont, hany]
      simp [hfr]
  · intro hno
    have hany : (inclinationRangeIndices beams c incl).any (fun j =>
        decide (j < beams.length) &&
        match beams.get? j with
        | some bj => beamsConnected b bj
        | none => false) = false := by
      by_contra hny
      have hany' : (inclinationRangeIndices beams c incl).any (fun j =>
          decide (j < beams.length) &&
          match beams.get? j with
          | some bj => beamsConnected b bj
          | none => false) = true := by
        revert hny
        cases (inclinationRangeIndices beams c incl).any (fun j =>
          decide (j < beams.length) &&
          match beams.get? j with
          | some bj => beamsConnected b bj
          | none => false) <;> simp
      obtain ⟨j, hj, hpj⟩ := List.any_eq_true.mp hany'
      cases hg : beams.get? j with
      | none =>
        rw [hg] at hpj
        simp at hpj
      | some bj =>
        rw [hg] at hpj
        simp at hpj
        exact hno ⟨j, bj, hj, hg, hpj.2⟩
    rw [calcIncl_get? piQ beams c incl i b hb, hcont, hany]
    simp

def w6beams : List Beam :=
  [⟨0, 0, 100, 0, 0, false⟩, ⟨0, 0, 0, 150, 0, false⟩,
   ⟨0, 0, 50, 100, 0, false⟩, ⟨30, 150, 70, 150, 0, false⟩]

/-- Witness for c6_connected_tilt: in a four-beam structure with the
range covering only the first beam, the connected frame beam gets the
full angle, the connected diagonal beam a quarter of it, and the
unconnected beam zero. -/
theorem c6_connected_tilt_witness :
    (calculateBeamInclinations 3 w6beams ⟨0, 0⟩ ⟨20, 0, 0⟩).get? 1 =
      some ⟨20 * 3 / 180, true⟩ ∧
    (calculateBeamInclinations 3 w6beams ⟨0, 0⟩ ⟨20, 0, 0⟩).get? 2 =
      some ⟨20 * 3 / 180 * (1/4), false⟩ ∧
    (calculateBeamInclinations 3 w6beams ⟨0, 0⟩ ⟨20, 0, 0⟩).get? 3 =
      some ⟨0, false⟩ := by
  have hr : getInclinationRange w6beams ⟨0, 0⟩ ⟨20, 0, 0⟩ =
      some ⟨0, 0, 0, 0, false⟩ := by
    simp [w6beams, getInclinationRange, clampIndex, min_def, max_def]
  have hidx : inclinationRangeIndices w6beams ⟨0, 0⟩ ⟨20, 0, 0⟩ = [0] := by
    simp [w6beams, inclinationRangeIndices, getInclinationRange, clampIndex,
      beamInRange, min_def, max_def, List.range, List.range.loop, List.filter]
    norm_num
  refine ⟨?_, ?_, ?_⟩
  · refine ((c6_connected_tilt 3 w6beams ⟨0, 0⟩ ⟨20, 0, 0⟩ ⟨0, 0, 0, 0, false⟩
      1 ⟨0, 0, 0, 150, 0, false⟩ hr rfl ?_).1 ?_).1 ?_
    · simp [beamInRange, min_def, max_def]
      norm_num
    · refine ⟨0, ⟨0, 0, 100, 0, 0, false⟩, ?_, rfl, ?_⟩
      · rw [hidx]
        simp
      · simp [beamsConnected, pointsEqual]
    · simp [isFrameBeam, w6beams, beamsCoordBounds, min_def, max_def]
      norm_num
  · refine ((c6_connected_tilt 3 w6beams ⟨0, 0⟩ ⟨20, 0, 0⟩ ⟨0, 0, 0, 0, false⟩
      2 ⟨0, 0, 50, 100, 0, false⟩ hr rfl ?_).1 ?_).2 ?_
    · simp [beamInRange, min_def, max_def]
      norm_num
    · refine ⟨0, ⟨0, 0, 100, 0, 0, false⟩, ?_, rfl, ?_⟩
      · rw [hidx]
        simp
      · simp [beamsConnected, pointsEqual]
    · simp [isFrameBeam, w6beams, beamsCoordBounds, min_def, max_def]
  · refine (c6_connected_tilt 3 w6beams ⟨0, 0⟩ ⟨20, 0, 0⟩ ⟨0, 0, 0, 0, false⟩
      3 ⟨30, 150, 70, 150, 0, false⟩ hr rfl ?_).2 ?_
    · simp [beamInRange, min_def, max_def]
      norm_num
    · rintro ⟨j, bj, hj, hbj, hc⟩
      rw [hidx] at hj
      simp at hj
      subst hj
      have hbj' : bj = ⟨0, 0, 100, 0, 0, false⟩ := by
        have : w6beams.get? 0 = some ⟨0, 0, 100, 0, 0, false⟩ := rfl
        rw [this] at hbj
        exact (Option.some.injEq _ _).mp hbj.symm
      subst hbj'
      simp [beamsConnected, pointsEqual] at hc

/-- The accumulator step of _getNearestBeamIndex. -/
def nearestStep (f : Beam → ℚ) (beams : List Beam)
    (acc : Option (ℕ × ℚ)) (i : ℕ) : Option (ℕ × ℚ) :=
  match beams.get? i with
  | none => acc
  | some b =>
    match acc with
    | none => some (i, f b)
    | some (j, dj) => if f b < dj then some (i, f b) else some (j, dj)

lemma nearest_fold_spec (f : Beam → ℚ) (beams : List Beam) :
    ∀ (l : List ℕ) (acc : Option (ℕ × ℚ)),
      (∀ j d, acc = some (j, d) → ∃ bj, beams.get? j = some bj ∧ d = f bj) →
      (∀ j d, l.foldl (nearestStep f beams) acc = some (j, d) →
        (∃ bj, beams.get? j = some bj ∧ d = f bj) ∧
        (∀ j0 d0, acc = some (j0, d0) → d ≤ d0) ∧
        (∀ i ∈ l, ∀ bi, beams.get? i = some bi → d ≤ f bi)) ∧
      (∀ j0 d0, acc = some (j0, d0) →
        ∃ j d, l.foldl (nearestStep f beams) acc = some (j, d)) ∧
      (∀ i ∈ l, ∀ bi, beams.get? i = some bi →
        ∃ j d, l.foldl (nearestStep f beams) acc = some (j, d)) := by
  intro l
  induction l with
  | nil =>
    intro acc hP
    refine ⟨?_, ?_, ?_⟩
    · intro j d hres
      simp only [List.foldl_nil] at hres
      refine ⟨hP j d hres, ?_, ?_⟩
      · intro j0 d0 h0
        rw [hres] at h0
        simp only [Option.some.injEq, Prod.mk.injEq] at h0
        exact le_of_eq h0.2
      · intro i hi bi
        simp at hi
    · intro j0 d0 h0
      exact ⟨j0, d0, by simpa using h0⟩
    · intro i hi
      simp at hi
  | cons a l ih =>
    intro acc hP
    cases hg : beams.get? a with
    | none =>
      have hstep : nearestStep f beams acc a = acc := by
        unfold nearestStep
        rw [hg]
      obtain ⟨ih1, ih2, ih3⟩ := ih acc hP
      refine ⟨?_, ?_, ?_⟩
      · intro j d hres
        rw [List.foldl_cons, hstep] at hres
        obtain ⟨hw, hle, hall⟩ := ih1 j d hres
        refine ⟨hw, hle, ?_⟩
        intro i hi bi hbi
        rcases List.mem_cons.mp hi with rfl | hi'
        · rw [hg] at hbi
          exact Option.noConfusion hbi
        · exact hall i hi' bi hbi
      · intro j0 d0 h0
        rw [List.foldl_cons, hstep]
        exact ih2 j0 d0 h0
      · intro i hi bi hbi
        rw [List.foldl_cons, hstep]
        rcases List.mem_cons.mp hi with rfl | hi'
        · rw [hg] at hbi
          exact Option.noConfusion hbi
        · exact ih3 i hi' bi hbi
    | some b =>
      have hacc' : ∀ j d, nearestStep f beams acc a = some (j, d) →
          ∃ bj, beams.get? j = some bj ∧ d = f bj := by
        intro j d hstep
        cases acc with
        | none =>
          simp only [nearestStep, hg] at hstep
          simp only [Option.some.injEq, Prod.mk.injEq] at hstep
          exact ⟨b, by rw [← hstep.1]; exact hg, hstep.2.symm⟩
        | some q =>
          obtain ⟨j0, d0⟩ := q
          simp only [nearestStep, hg] at hstep
          by_cases hlt : f b < d0
          · rw [if_pos hlt] at hstep
            simp only [Option.some.injEq, Prod.mk.injEq] at hstep
            exact ⟨b, by rw [← hstep.1]; exact hg, hstep.2.symm⟩
          · rw [if_neg hlt] at hstep
            simp only [Option.some.injEq, Prod.mk.injEq] at hstep
            obtain ⟨bj, hbj, hd⟩ := hP j0 d0 rfl
            exact ⟨bj, by rw [← hstep.1]; exact hbj, by rw [← hstep.2]; exact hd⟩
      have hstep_le : ∀ j d, nearestStep f beams acc a = some (j, d) →
          d ≤ f b ∧ (∀ j0 d0, acc = some (j0, d0) → d ≤ d0) := by
        intro j d hstep
        cases acc with
        | none =>
          simp only [nearestStep, hg] at hstep
          simp only [Option.some.injEq, Prod.mk.injEq] at hstep
          exact ⟨le_of_eq hstep.2.symm, fun j0 d0 h0 => Option.noConfusion h0⟩
        | some q =>
          obtain ⟨j0, d0⟩ := q
          simp only [nearestStep, hg] at hstep
          by_cases hlt : f b < d0
          · rw [if_pos hlt] at hstep
            simp only [Option.some.injEq, Prod.mk.injEq] at hstep
            refine ⟨le_of_eq hstep.2.symm, ?_⟩
            intro j1 d1 h1
            simp only [Option.some.injEq, Prod.mk.injEq] at h1
            rw [← hstep.2, ← h1.2]
            exact le_of_lt hlt
          · rw [if_neg hlt] at hstep
            simp only [Option.some.injEq, Prod.mk.injEq] at hstep
            refine ⟨?_, ?_⟩
            · rw [← hstep.2]
              exact not_lt.mp hlt
            · intro j1 d1 h1
              simp only [Option.some.injEq, Prod.mk.injEq] at h1
              rw [← hstep.2, ← h1.2]
      have hsome : ∃ j d, nearestStep f beams acc a = some (j, d) := by
        cases acc with
        | none => exact ⟨a, f b, by simp only [nearestStep, hg]⟩
        | some q =>
          obtain ⟨j0, d0⟩ := q
          by_cases hlt : f b < d0
          · exact ⟨a, f b, by simp only [nearestStep, hg]; rw [if_pos hlt]⟩
          · exact ⟨j0, d0, by simp only [nearestStep, hg]; rw [if_neg hlt]⟩
      obtain ⟨ja, da, hja⟩ := hsome
      obtain ⟨ih1, ih2, ih3⟩ := ih (nearestStep f beams acc a) hacc'
      refine ⟨?_, ?_, ?_⟩
      · intro j d hres
        rw [List.foldl_cons] at hres
        obtain ⟨hw, hle, hall⟩ := ih1 j d hres
        have hda := hle ja da hja
        obtain ⟨hfb, hacc0⟩ := hstep_le ja da hja
        refine ⟨hw, ?_, ?_⟩
        · intro j0 d0 h0
          exact le_trans hda (hacc0 j0 d0 h0)
        · intro i hi bi hbi
          rcases List.mem_cons.mp hi with rfl | hi'
          · rw [hg] at hbi
            simp only [Option.some.injEq] at hbi
            rw [← hbi]
            exact le_trans hda hfb
          · exact hall i hi' bi hbi
      · intro j0 d0 h0
        rw [List.foldl_cons]
        exact ih2 ja da hja
      · intro i hi bi hbi
        rw [List.foldl_cons]
        exact ih2 ja da hja

lemma getNearestBeamIndex_eq (p : Panel) (beams : List Beam) :
    getNearestBeamIndex p beams =
      ((List.range beams.length).foldl
        (nearestStep (fun b => distPointToSegSq (p.x + p.w / 2) (p.y + p.h / 2)
          b.x1 b.y1 b.x2 b.y2) beams) none).map (fun q => q.1) := rfl

lemma nearest_min (p : Panel) (beams : List Beam) (hne : beams ≠ []) :
    ∃ idx bidx, getNearestBeamIndex p beams = some idx ∧
      beams.get? idx = some bidx ∧
      ∀ j bj, beams.get? j = some bj →
        distPointToSegSq (p.x + p.w / 2) (p.y + p.h / 2)
            bidx.x1 bidx.y1 bidx.x2 bidx.y2 ≤
          distPointToSegSq (p.x + p.w / 2) (p.y + p.h / 2)
            bj.x1 bj.y1 bj.x2 bj.y2 := by
  obtain ⟨spec1, spec2, spec3⟩ := nearest_fold_spec
    (fun b => distPointToSegSq (p.x + p.w / 2) (p.y + p.h / 2)
      b.x1 b.y1 b.x2 b.y2) beams (List.range beams.length) none
    (by intro j d h; exact Option.noConfusion h)
  obtain ⟨b0, bs, rfl⟩ : ∃ b0 bs, beams = b0 :: bs := by
    cases beams with
    | nil => exact absurd rfl hne
    | cons b0 bs => exact ⟨b0, bs, rfl⟩
  have h0 : (b0 :: bs).get? 0 = some b0 := rfl
  obtain ⟨j, d, hres⟩ := spec3 0 (by simp) b0 h0
  obtain ⟨⟨bj, hbj, hd⟩, _, hall⟩ := spec1 j d hres
  refine ⟨j, bj, ?_, hbj, ?_⟩
  · rw [getNearestBeamIndex_eq, hres]
    rfl
  · intro j2 bj2 hbj2
    have hj2 : j2 ∈ List.range (b0 :: bs).length :=
      List.mem_range.mpr (get?_lt _ j2 bj2 hbj2)
    have hle := hall j2 hj2 bj2 hbj2
    rw [← hd]
    exact hle

lemma ite_lt_max (a r : ℚ) : (if a < r then r else a) = max a r := by
  rcases lt_or_ge a r with h | h
  · rw [if_pos h, max_eq_right h.le]
  · rw [if_neg (not_lt.mpr h), max_eq_left h]

lemma fold_tilt_eq_fold_max (tilts : List ℚ) :
    ∀ (l : List ℕ) (a : ℚ),
      l.foldl (fun acc i =>
        if acc < tilts.getD i 0 then tilts.getD i 0 else acc) a =
      l.foldl (fun acc i => max acc (tilts.getD i 0)) a := by
  intro l
  induction l with
  | nil => intro a; rfl
  | cons x xs ih =>
    intro a
    rw [List.foldl_cons, List.foldl_cons, ite_lt_max]
    exact ih (max a (tilts.getD x 0))

lemma le_foldl_max (f : ℕ → ℚ) :
    ∀ (l : List ℕ) (a : ℚ), a ≤ l.foldl (fun acc i => max acc (f i)) a := by
  intro l
  induction l with
  | nil => intro a; exact le_refl a
  | cons x xs ih =>
    intro a
    rw [List.foldl_cons]
    exact le_trans (le_max_left a (f x)) (ih (max a (f x)))

lemma mem_le_foldl_max (f : ℕ → ℚ) :
    ∀ (l : List ℕ) (a : ℚ), ∀ k ∈ l,
      f k ≤ l.foldl (fun acc i => max acc (f i)) a := by
  intro l
  induction l with
  | nil => intro a k hk; simp at hk
  | cons x xs ih =>
    intro a k hk
    rw [List.foldl_cons]
    rcases List.mem_cons.mp hk with rfl | hk'
    · exact le_trans (le_max_right a (f k)) (le_foldl_max f xs (max a (f k)))
    · exact ih (max a (f x)) k hk'

lemma foldl_max_attained (f : ℕ → ℚ) :
    ∀ (l : List ℕ) (a : ℚ),
      l.foldl (fun acc i => max acc (f i)) a = a ∨
      ∃ j ∈ l, l.foldl (fun acc i => max acc (f i)) a = f j := by
  intro l
  induction l with
  | nil => intro a; exact Or.inl rfl
  | cons x xs ih =>
    intro a
    rw [List.foldl_cons]
    rcases ih (max a (f x)) with h | ⟨j, hj, hjf⟩
    · rcases max_cases a (f x) with ⟨hm, _⟩ | ⟨hm, _⟩
      · exact Or.inl (by rw [h, hm])
      · exact Or.inr ⟨x, List.mem_cons_self x xs, by rw [h, hm]⟩
    · exact Or.inr ⟨j, List.mem_cons_of_mem x hj, hjf⟩

/-- C5 corrected: a panel's effective tilt is the fold of the
intersecting beams' tilts starting from zero — the maximum of zero and
those tilts, which equals the plain maximum whenever the tilts are
nonnegative (in particular for nonnegative requested angles) but not for
negative ones; with no intersecting beam it falls back to the tilt of a
beam at minimal point-to-segment distance from the panel's center. -/
theorem c5_amended (p : Panel) (beams : List Beam) (tilts : List ℚ) :
    (panelIntersectingBeams p beams ≠ [] →
      panelEffectiveTilt p beams tilts =
        (panelIntersectingBeams p beams).foldl
          (fun acc i => max acc (tilts.getD i 0)) 0 ∧
      ((∀ i ∈ panelIntersectingBeams p beams, 0 ≤ tilts.getD i 0) →
        ∃ j ∈ panelIntersectingBeams p beams,
          panelEffectiveTilt p beams tilts = tilts.getD j 0 ∧
          ∀ k ∈ panelIntersectingBeams p beams,
            tilts.getD k 0 ≤ panelEffectiveTilt p beams tilts)) ∧
    (panelIntersectingBeams p beams = [] → beams ≠ [] →
      ∃ idx bidx, getNearestBeamIndex p beams = some idx ∧
        beams.get? idx = some bidx ∧
        (idx < tilts.length →
          panelEffectiveTilt p beams tilts = tilts.getD idx 0) ∧
        ∀ j bj, beams.get? j = some bj →
          distPointToSegSq (p.x + p.w / 2) (p.y + p.h / 2)
              bidx.x1 bidx.y1 bidx.x2 bidx.y2 ≤
            distPointToSegSq (p.x + p.w / 2) (p.y + p.h / 2)
              bj.x1 bj.y1 bj.x2 bj.y2) := by
  constructor
  · intro hne
    have heff : panelEffectiveTilt p beams tilts =
        (panelIntersectingBeams p beams).foldl
          (fun acc i => max acc (tilts.getD i 0)) 0 := by
      unfold panelEffectiveTilt
      rw [if_neg hne]
      exact fold_tilt_eq_fold_max tilts (panelIntersectingBeams p beams) 0
    refine ⟨heff, ?_⟩
    intro hnn
    rcases foldl_max_attained (fun i => tilts.getD i 0)
      (panelIntersectingBeams p beams) 0 with h0 | ⟨j, hj, hjf⟩
    · obtain ⟨i0, l0, hl0⟩ : ∃ i0 l0, panelIntersectingBeams p beams = i0 :: l0 := by
        cases hL : panelIntersectingBeams p beams with
        | nil => exact absurd hL hne
        | cons i0 l0 => exact ⟨i0, l0, rfl⟩
      have hmem : i0 ∈ panelIntersectingBeams p beams := by
        rw [hl0]
        exact List.mem_cons_self i0 l0
      have hge := mem_le_foldl_max (fun i => tilts.getD i 0)
        (panelIntersectingBeams p beams) 0 i0 hmem
      have hle0 : tilts.getD i0 0 ≤ 0 := by
        rw [h0] at hge
        exact hge
      have heq0 : tilts.getD i0 0 = 0 := le_antisymm hle0 (hnn i0 hmem)
      refine ⟨i0, hmem, ?_, ?_⟩
      · rw [heff, h0, heq0]
      · intro k hk
        rw [heff]
        exact mem_le_foldl_max (fun i => tilts.getD i 0)
          (panelIntersectingBeams p beams) 0 k hk
    · refine ⟨j, hj, ?_, ?_⟩
      · rw [heff, hjf]
      · intro k hk
        rw [heff]
        exact mem_le_foldl_max (fun i => tilts.getD i 0)
          (panelIntersectingBeams p beams) 0 k hk
  · intro hempty hne
    obtain ⟨idx, bidx, hidx, hbidx, hmin⟩ := nearest_min p beams hne
    refine ⟨idx, bidx, hidx, hbidx, ?_, hmin⟩
    intro hlen
    unfold panelEffectiveTilt
    rw [if_pos hempty, hidx]
    simp only [if_pos hlen]

/-- C5 counterexample: one beam crosses the panel's rectangle and its
resolved tilt is −1, so the maximum tilt among intersecting beams is −1,
yet the code's fold starting from zero yields an effective tilt of 0. -/
theorem c5_counterexample :
    panelIntersectingBeams ⟨0, 0, 10, 10, 10, 0, 0⟩
      [⟨-5, 5, 15, 5, 0, false⟩] = [0] ∧
    ([(-1 : ℚ)].getD 0 0 = -1) ∧
    panelEffectiveTilt ⟨0, 0, 10, 10, 10, 0, 0⟩
      [⟨-5, 5, 15, 5, 0, false⟩] [-1] = 0 ∧
    ((0 : ℚ) ≠ -1) := by
  refine ⟨?_, by norm_num, ?_, by norm_num⟩
  · simp [panelIntersectingBeams, segmentIntersectsRect, panelRectOf,
      pointInRectB, segmentsIntersectOri, orientationOf, onSegmentOf,
      segEps, min_def, max_def, List.range, List.range.loop, List.filter]
    norm_num
  · simp [panelEffectiveTilt, panelIntersectingBeams, segmentIntersectsRect,
      panelRectOf, pointInRectB, segmentsIntersectOri, orientationOf,
      onSegmentOf, segEps, min_def, max_def, List.range, List.range.loop,
      List.filter]
    norm_num

theorem c5_amended_witness :
    (∃ j ∈ panelIntersectingBeams ⟨0, 0, 10, 10, 10, 0, 0⟩
        [⟨-5, 5, 15, 5, 0, false⟩],
      panelEffectiveTilt ⟨0, 0, 10, 10, 10, 0, 0⟩
          [⟨-5, 5, 15, 5, 0, false⟩] [2] = ([2] : List ℚ).getD j 0 ∧
      ∀ k ∈ panelIntersectingBeams ⟨0, 0, 10, 10, 10, 0, 0⟩
          [⟨-5, 5, 15, 5, 0, false⟩],
        ([2] : List ℚ).getD k 0 ≤
          panelEffectiveTilt ⟨0, 0, 10, 10, 10, 0, 0⟩
            [⟨-5, 5, 15, 5, 0, false⟩] [2]) ∧
    (∃ idx bidx,
      getNearestBeamIndex ⟨1000, 1000, 10, 10, 10, 0, 0⟩
        [⟨-5, 5, 15, 5, 0, false⟩] = some idx ∧
      ([⟨-5, 5, 15, 5, 0, false⟩] : List Beam).get? idx = some bidx ∧
      (idx < ([2] : List ℚ).length →
        panelEffectiveTilt ⟨1000, 1000, 10, 10, 10, 0, 0⟩
          [⟨-5, 5, 15, 5, 0, false⟩] [2] = ([2] : List ℚ).getD idx 0) ∧
      ∀ j bj, ([⟨-5, 5, 15, 5, 0, false⟩] : List Beam).get? j = some bj →
        distPointToSegSq (1000 + 10 / 2) (1000 + 10 / 2)
            bidx.x1 bidx.y1 bidx.x2 bidx.y2 ≤
          distPointToSegSq (1000 + 10 / 2) (1000 + 10 / 2)
            bj.x1 bj.y1 bj.x2 bj.y2) := by
  have hL : panelIntersectingBeams ⟨0, 0, 10, 10, 10, 0, 0⟩
      [⟨-5, 5, 15, 5, 0, false⟩] = [0] := by
    simp [panelIntersectingBeams, segmentIntersectsRect, panelRectOf,
      pointInRectB, segmentsIntersectOri, orientationOf, onSegmentOf,
      segEps, min_def, max_def, List.range, List.range.loop, List.filter]
    norm_num
  have hE : panelIntersectingBeams ⟨1000, 1000, 10, 10, 10, 0, 0⟩
      [⟨-5, 5, 15, 5, 0, false⟩] = [] := by
    simp [panelIntersectingBeams, segmentIntersectsRect, panelRectOf,
      pointInRectB, segmentsIntersectOri, orientationOf, onSegmentOf,
      segEps, min_def, max_def, List.range, List.range.loop, List.filter]
    norm_num
  constructor
  · exact ((c5_amended ⟨0, 0, 10, 10, 10, 0, 0⟩
      [⟨-5, 5, 15, 5, 0, false⟩] [2]).1 (by rw [hL]; simp)).2 (by
        intro i hi
        rw [hL] at hi
        simp at hi
        subst hi
        norm_num)
  · exact (c5_amended ⟨1000, 1000, 10, 10, 10, 0, 0⟩
      [⟨-5, 5, 15, 5, 0, false⟩] [2]).2 hE (by simp)

lemma takeWhile_eq_filter_mono (p : ℕ → Bool)
    (hp : ∀ i j : ℕ, i ≤ j → p j = true → p i = true) :
    ∀ (l : List ℕ), l.Pairwise (· ≤ ·) → l.takeWhile p = l.filter p := by
  intro l
  induction l with
  | nil => intro _; rfl
  | cons a l ih =>
    intro hpw
    rw [List.pairwise_cons] at hpw
    by_cases h : p a = true
    · rw [List.takeWhile_cons_of_pos h, List.filter_cons_of_pos h]
      exact congrArg _ (ih hpw.2)
    · rw [List.takeWhile_cons_of_neg (by simpa using h)]
      have hfa : (a :: l).filter p = l.filter p := by
        simp [List.filter_cons, h]
      rw [hfa]
      symm
      rw [List.filter_eq_nil_iff]
      intro b hb hpb
      exact h (hp a b (hpw.1 b hb) hpb)

/-- C3: auto-structure generation with a valid terrace and both bounds in
place: when numBeams·spacing reaches the structure length
max(50, terraceHeight − 10) the call fails, reports the required length
numBeams·spacing and the available structure length, and leaves the
state untouched; otherwise it succeeds and replaces the beams with the
4-beam auto-generated perimeter frame plus one parallel beam at
startY + (i+1)·spacing for each i in 0..numBeams−1 with (i+1)·spacing
strictly below the structure length — 4 + N' beams with N' ≤ numBeams. -/
theorem c3_auto_structure (numBeams : ℕ) (spacing : ℚ) (profile : ℕ)
    (width height : Option ℚ) (s : EditorState)
    (hN : 0 < numBeams)
    (hcb : s.constructionBounds.isSome = true)
    (hpb : s.panelBounds.isSome = true) :
    ∀ tb, getTerraceBounds s.terraceVertices = some tb →
      (max 50 (tb.maxY - tb.minY - 2 * 5) ≤ (numBeams : ℚ) * spacing →
        createAutoStructure numBeams spacing profile width height s =
          (⟨false, some ((numBeams : ℚ) * spacing),
            some (max 50 (tb.maxY - tb.minY - 2 * 5)),
            some (max 50 (tb.maxX - tb.minX - 2 * 5),
                  max 50 (tb.maxY - tb.minY - 2 * 5))⟩, s)) ∧
      ((numBeams : ℚ) * spacing < max 50 (tb.maxY - tb.minY - 2 * 5) →
        createAutoStructure numBeams spacing profile width height s =
          (⟨true, none, none,
            some (max 50 (tb.maxX - tb.minX - 2 * 5),
                  max 50 (tb.maxY - tb.minY - 2 * 5))⟩,
           { s with beams :=
              [⟨(tb.minX + tb.maxX) / 2 - max 50 (tb.maxX - tb.minX - 2 * 5) / 2,
                (tb.minY + tb.maxY) / 2 - max 50 (tb.maxY - tb.minY - 2 * 5) / 2,
                (tb.minX + tb.maxX) / 2 - max 50 (tb.maxX - tb.minX - 2 * 5) / 2 +
                  max 50 (tb.maxX - tb.minX - 2 * 5),
                (tb.minY + tb.maxY) / 2 - max 50 (tb.maxY - tb.minY - 2 * 5) / 2,
                profile, true⟩,
               ⟨(tb.minX + tb.maxX) / 2 - max 50 (tb.maxX - tb.minX - 2 * 5) / 2 +
                  max 50 (tb.maxX - tb.minX - 2 * 5),
                (tb.minY + tb.maxY) / 2 - max 50 (tb.maxY - tb.minY - 2 * 5) / 2,
                (tb.minX + tb.maxX) / 2 - max 50 (tb.maxX - tb.minX - 2 * 5) / 2 +
                  max 50 (tb.maxX - tb.minX - 2 * 5),
                (tb.minY + tb.maxY) / 2 - max 50 (tb.maxY - tb.minY - 2 * 5) / 2 +
                  max 50 (tb.maxY - tb.minY - 2 * 5),
                profile, true⟩,
               ⟨(tb.minX + tb.maxX) / 2 - max 50 (tb.maxX - tb.minX - 2 * 5) / 2 +
                  max 50 (tb.maxX - tb.minX - 2 * 5),
                (tb.minY + tb.maxY) / 2 - max 50 (tb.maxY - tb.minY - 2 * 5) / 2 +
                  max 50 (tb.maxY - tb.minY - 2 * 5),
                (tb.minX + tb.maxX) / 2 - max 50 (tb.maxX - tb.minX - 2 * 5) / 2,
                (tb.minY + tb.maxY) / 2 - max 50 (tb.maxY - tb.minY - 2 * 5) / 2 +
                  max 50 (tb.maxY - tb.minY - 2 * 5),
                profile, true⟩,
               ⟨(tb.minX + tb.maxX) / 2 - max 50 (tb.maxX - tb.minX - 2 * 5) / 2,
                (tb.minY + tb.maxY) / 2 - max 50 (tb.maxY - tb.minY - 2 * 5) / 2 +
                  max 50 (tb.maxY - tb.minY - 2 * 5),
                (tb.minX + tb.maxX) / 2 - max 50 (tb.maxX - tb.minX - 2 * 5) / 2,
                (tb.minY + tb.maxY) / 2 - max 50 (tb.maxY - tb.minY - 2 * 5) / 2,
                profile, true⟩] ++
              ((List.range numBeams).filter (fun (i : ℕ) =>
                  decide (((i : ℚ) + 1) * spacing <
                    max 50 (tb.maxY - tb.minY - 2 * 5)))).map (fun (i : ℕ) =>
                ⟨(tb.minX + tb.maxX) / 2 - max 50 (tb.maxX - tb.minX - 2 * 5) / 2,
                 (tb.minY + tb.maxY) / 2 - max 50 (tb.maxY - tb.minY - 2 * 5) / 2 +
                   ((i : ℚ) + 1) * spacing,
                 (tb.minX + tb.maxX) / 2 - max 50 (tb.maxX - tb.minX - 2 * 5) / 2 +
                   max 50 (tb.maxX - tb.minX - 2 * 5),
                 (tb.minY + tb.maxY) / 2 - max 50 (tb.maxY - tb.minY - 2 * 5) / 2 +
                   ((i : ℚ) + 1) * spacing,
                 profile, true⟩) }) ∧
        (createAutoStructure numBeams spacing profile width height s).2.beams.length =
          4 + ((List.range numBeams).filter (fun (i : ℕ) =>
            decide (((i : ℚ) + 1) * spacing <
              max 50 (tb.maxY - tb.minY - 2 * 5)))).length ∧
        ((List.range numBeams).filter (fun (i : ℕ) =>
          decide (((i : ℚ) + 1) * spacing <
            max 50 (tb.maxY - tb.minY - 2 * 5)))).length ≤ numBeams) := by
  intro tb htb
  obtain ⟨cb0, hcb'⟩ := Option.isSome_iff_exists.mp hcb
  obtain ⟨pb0, hpb'⟩ := Option.isSome_iff_exists.mp hpb
  have hTW : ∀ sY : ℚ,
      ((List.range numBeams).takeWhile (fun (i : ℕ) =>
        decide (sY + ((i : ℚ) + 1) * spacing <
          sY + max 50 (tb.maxY - tb.minY - 2 * 5)))) =
      (List.range numBeams).filter (fun (i : ℕ) =>
        decide (((i : ℚ) + 1) * spacing <
          max 50 (tb.maxY - tb.minY - 2 * 5))) := by
    intro sY
    rw [takeWhile_eq_filter_mono _ ?mono _
      (List.Pairwise.imp le_of_lt (List.pairwise_lt_range _))]
    case mono =>
      intro i j hij hpj
      rw [decide_eq_true_eq] at hpj ⊢
      rcases le_or_lt 0 spacing with hs | hs
      · have hcast : ((i : ℚ) + 1) ≤ ((j : ℚ) + 1) := by
          have : (i : ℚ) ≤ (j : ℚ) := by exact_mod_cast hij
          linarith
        have := mul_le_mul_of_nonneg_right hcast hs
        linarith
      · have hneg : ((i : ℚ) + 1) * spacing < 0 :=
          mul_neg_of_pos_of_neg (by positivity) hs
        have hL50 : (50 : ℚ) ≤ max 50 (tb.maxY - tb.minY - 2 * 5) :=
          le_max_left _ _
        linarith
    apply List.filter_congr
    intro a _
    simp only [decide_eq_decide]
    constructor
    · intro h
      linarith
    · intro h
      linarith
  constructor
  · intro hfail
    unfold createAutoStructure
    simp only [htb, Option.isNone_some, Bool.false_eq_true, if_false,
      hcb', hpb']
    rw [if_pos ⟨hN, hfail⟩]
  · intro hsucc
    have hneg : ¬(0 < numBeams ∧
        max 50 (tb.maxY - tb.minY - 2 * 5) ≤ (numBeams : ℚ) * spacing) := by
      rintro ⟨_, hand⟩
      exact absurd hand (not_le.mpr hsucc)
    refine ⟨?_, ?_, ?_⟩
    · unfold createAutoStructure
      simp only [htb, Option.isNone_some, Bool.false_eq_true, if_false,
        hcb', hpb']
      rw [if_neg hneg, hTW]
    · unfold createAutoStructure
      simp only [htb, Option.isNone_some, Bool.false_eq_true, if_false,
        hcb', hpb']
      rw [if_neg hneg, hTW]
      simp [List.length_append, List.length_map]
      omega
    · calc ((List.range numBeams).filter (fun (i : ℕ) =>
            decide (((i : ℚ) + 1) * spacing <
              max 50 (tb.maxY - tb.minY - 2 * 5)))).length ≤
            (List.range numBeams).length := List.length_filter_le _ _
        _ = numBeams := List.length_range numBeams

/-- Witness for c3_auto_structure: the spec's concrete scenario — 5 beams
at spacing 100 on a 585 × 388 terrace need 500 cm but only 378 cm are
available, so the call is rejected with those reported lengths and the
state is unchanged. -/
theorem c3_auto_structure_witness :
    createAutoStructure 5 100 0 none none
        (setRectangularTerrace 585 388 (initState none)) =
      (⟨false, some 500, some 378, some (575, 378)⟩,
       setRectangularTerrace 585 388 (initState none)) := by
  have hter : getTerraceBounds
      (setRectangularTerrace 585 388 (initState none)).terraceVertices =
      some ⟨0, 585, 0, 388⟩ := by
    simp [setRectangularTerrace, getTerraceBounds, initState,
      calculateConstructionBounds, calculatePanelBounds, min_def, max_def]
  have hcb : (setRectangularTerrace 585 388 (initState none)).constructionBounds.isSome = true := by
    simp [setRectangularTerrace, getTerraceBounds, initState,
      calculateConstructionBounds, calculatePanelBounds, min_def, max_def]
  have hpb : (setRectangularTerrace 585 388 (initState none)).panelBounds.isSome = true := by
    simp [setRectangularTerrace, getTerraceBounds, initState,
      calculateConstructionBounds, calculatePanelBounds, min_def, max_def]
  have h := ((c3_auto_structure 5 100 0 none none
      (setRectangularTerrace 585 388 (initState none)) (by norm_num) hcb hpb)
      ⟨0, 585, 0, 388⟩ hter).1 (by norm_num [max_def])
  rw [h]
  norm_num [max_def]

lemma listModify_nil (f : α → α) (j : ℕ) : listModify j f ([] : List α) = [] := by
  cases j <;> rfl

lemma listModify_cons_zero (f : α → α) (a : α) (l : List α) :
    listModify 0 f (a :: l) = f a :: l := rfl

lemma listModify_cons_succ (f : α → α) (a : α) (l : List α) (m : ℕ) :
    listModify (m + 1) f (a :: l) = a :: listModify m f l := rfl

lemma listModify_get? (f : α → α) :
    ∀ (l : List α) (j i : ℕ),
      (listModify j f l).get? i =
        if i = j then (l.get? i).map f else l.get? i := by
  intro l
  induction l with
  | nil =>
    intro j i
    rw [listModify_nil]
    simp
  | cons a l ih =>
    intro j i
    cases j with
    | zero =>
      cases i with
      | zero => rw [listModify_cons_zero]; rfl
      | succ n =>
        rw [listModify_cons_zero, List.get?_cons_succ, List.get?_cons_succ]
        simp
    | succ m =>
      cases i with
      | zero => rw [listModify_cons_succ]; rfl
      | succ n =>
        rw [listModify_cons_succ, List.get?_cons_succ, List.get?_cons_succ, ih]
        by_cases h : n = m
        · simp [h]
        · rw [if_neg h, if_neg (by omega)]

lemma moveFold_get? (dx dy : ℚ) (sel : List SelEntry) :
    ∀ (s : EditorState), sel.Nodup →
      (∀ i, (sel.foldl (applyMoveEntry dx dy) s).panels.get? i =
        if (⟨ElemKind.panel, i⟩ : SelEntry) ∈ sel
        then (s.panels.get? i).map (translatePanel dx dy)
        else s.panels.get? i) ∧
      (∀ i, (sel.foldl (applyMoveEntry dx dy) s).obstacles.get? i =
        if (⟨ElemKind.obstacle, i⟩ : SelEntry) ∈ sel
        then (s.obstacles.get? i).map (translateObstacle dx dy)
        else s.obstacles.get? i) ∧
      (∀ i, (sel.foldl (applyMoveEntry dx dy) s).beams.get? i =
        if (⟨ElemKind.beam, i⟩ : SelEntry) ∈ sel
        then (s.beams.get? i).map (translateBeam dx dy)
        else s.beams.get? i) ∧
      (∀ i, (sel.foldl (applyMoveEntry dx dy) s).texts.get? i =
        if (⟨ElemKind.text, i⟩ : SelEntry) ∈ sel
        then (s.texts.get? i).map (translateText dx dy)
        else s.texts.get? i) := by
  induction sel with
  | nil =>
    intro s _
    refine ⟨?_, ?_, ?_, ?_⟩ <;>
      · intro i
        simp
  | cons a l ih =>
    intro s hnd
    obtain ⟨ha, hl⟩ := List.nodup_cons.mp hnd
    obtain ⟨k, j⟩ := a
    have hfold : ∀ t : EditorState,
        ((⟨k, j⟩ : SelEntry) :: l).foldl (applyMoveEntry dx dy) s =
          l.foldl (applyMoveEntry dx dy) (applyMoveEntry dx dy s ⟨k, j⟩) :=
      fun _ => List.foldl_cons _ _
    cases k
    all_goals
      obtain ⟨ihp, iho, ihb, iht⟩ := ih (applyMoveEntry dx dy s ⟨_, j⟩) hl
    ·
      refine ⟨?_, ?_, ?_, ?_⟩
      · intro i
        rw [hfold s, ihp i]
        have hs1 : (applyMoveEntry dx dy s ⟨ElemKind.panel, j⟩).panels =
            listModify j (translatePanel dx dy) s.panels := rfl
        rw [hs1, listModify_get? _ _ j i]
        by_cases hij : i = j
        · subst hij
          rw [if_pos rfl, if_neg (by exact fun h => ha h),
            if_pos (List.mem_cons_self _ _)]
        · by_cases hmem : (⟨ElemKind.panel, i⟩ : SelEntry) ∈ l
          · rw [if_pos hmem, if_neg hij,
              if_pos (List.mem_cons_of_mem _ hmem)]
          · rw [if_neg hmem, if_neg hij,
              if_neg (by simp [List.mem_cons, SelEntry.mk.injEq, hij, hmem])]
      · intro i
        rw [hfold s, iho i]
        have hs1 : (applyMoveEntry dx dy s ⟨ElemKind.panel, j⟩).obstacles =
            s.obstacles := rfl
        rw [hs1]
        by_cases hmem : (⟨ElemKind.obstacle, i⟩ : SelEntry) ∈ l
        · rw [if_pos hmem, if_pos (List.mem_cons_of_mem _ hmem)]
        · rw [if_neg hmem, if_neg (by simp [List.mem_cons, hmem])]
      · intro i
        rw [hfold s, ihb i]
        have hs1 : (applyMoveEntry dx dy s ⟨ElemKind.panel, j⟩).beams =
            s.beams := rfl
        rw [hs1]
        by_cases hmem : (⟨ElemKind.beam, i⟩ : SelEntry) ∈ l
        · rw [if_pos hmem, if_pos (List.mem_cons_of_mem _ hmem)]
        · rw [if_neg hmem, if_neg (by simp [List.mem_cons, hmem])]
      · intro i
        rw [hfold s, iht i]
        have hs1 : (applyMoveEntry dx dy s ⟨ElemKind.panel, j⟩).texts =
            s.texts := rfl
        rw [hs1]
        by_cases hmem : (⟨ElemKind.text, i⟩ : SelEntry) ∈ l
        · rw [if_pos hmem, if_pos (List.mem_cons_of_mem _ hmem)]
        · rw [if_neg hmem, if_neg (by simp [List.mem_cons, hmem])]
    ·
      refine ⟨?_, ?_, ?_, ?_⟩
      · intro i
        rw [hfold s, ihp i]
        have hs1 : (applyMoveEntry dx dy s ⟨ElemKind.obstacle, j⟩).panels =
            s.panels := rfl
        rw [hs1]
        by_cases hmem : (⟨ElemKind.panel, i⟩ : SelEntry) ∈ l
        · rw [if_pos hmem, if_pos (List.mem_cons_of_mem _ hmem)]
        · rw [if_neg hmem, if_neg (by simp [List.mem_cons, hmem])]
      · intro i
        rw [hfold s, iho i]
        have hs1 : (applyMoveEntry dx dy s ⟨ElemKind.obstacle, j⟩).obstacles =
            listModify j (translateObstacle dx dy) s.obstacles := rfl
        rw [hs1, listModify_get? _ _ j i]
        by_cases hij : i = j
        · subst hij
          rw [if_pos rfl, if_neg (by exact fun h => ha h),
            if_pos (List.mem_cons_self _ _)]
        · by_cases hmem : (⟨ElemKind.obstacle, i⟩ : SelEntry) ∈ l
          · rw [if_pos hmem, if_neg hij,
              if_pos (List.mem_cons_of_mem _ hmem)]
          · rw [if_neg hmem, if_neg hij,
              if_neg (by simp [List.mem_cons, SelEntry.mk.injEq, hij, hmem])]
      · intro i
        rw [hfold s, ihb i]
        have hs1 : (applyMoveEntry dx dy s ⟨ElemKind.obstacle, j⟩).beams =
            s.beams := rfl
        rw [hs1]
        by_cases hmem : (⟨ElemKind.beam, i⟩ : SelEntry) ∈ l
        · rw [if_pos hmem, if_pos (List.mem_cons_of_mem _ hmem)]
        · rw [if_neg hmem, if_neg (by simp [List.mem_cons, hmem])]
      · intro i
        rw [hfold s, iht i]
        have hs1 : (applyMoveEntry dx dy s ⟨ElemKind.obstacle, j⟩).texts =
            s.texts := rfl
        rw [hs1]
        by_cases hmem : (⟨ElemKind.text, i⟩ : SelEntry) ∈ l
        · rw [if_pos hmem, if_pos (List.mem_cons_of_mem _ hmem)]
        · rw [if_neg hmem, if_neg (by simp [List.mem_cons, hmem])]
    ·
      refine ⟨?_, ?_, ?_, ?_⟩
      · intro i
        rw [hfold s, ihp i]
        have hs1 : (applyMoveEntry dx dy s ⟨ElemKind.beam, j⟩).panels =
            s.panels := rfl
        rw [hs1]
        by_cases hmem : (⟨ElemKind.panel, i⟩ : SelEntry) ∈ l
        · rw [if_pos hmem, if_pos (List.mem_cons_of_mem _ hmem)]
        · rw [if_neg hmem, if_neg (by simp [List.mem_cons, hmem])]
      · intro i
        rw [hfold s, iho i]
        have hs1 : (applyMoveEntry dx dy s ⟨ElemKind.beam, j⟩).obstacles =
            s.obstacles := rfl
        rw [hs1]
        by_cases hmem : (⟨ElemKind.obstacle, i⟩ : SelEntry) ∈ l
        · rw [if_pos hmem, if_pos (List.mem_cons_of_mem _ hmem)]
        · rw [if_neg hmem, if_neg (by simp [List.mem_cons, hmem])]
      · intro i
        rw [hfold s, ihb i]
        have hs1 : (applyMoveEntry dx dy s ⟨ElemKind.beam, j⟩).beams =
            listModify j (translateBeam dx dy) s.beams := rfl
        rw [hs1, listModify_get? _ _ j i]
        by_cases hij : i = j
        · subst hij
          rw [if_pos rfl, if_neg (by exact fun h => ha h),
            if_pos (List.mem_cons_self _ _)]
        · by_cases hmem : (⟨ElemKind.beam, i⟩ : SelEntry) ∈ l
          · rw [if_pos hmem, if_neg hij,
              if_pos (List.mem_cons_of_mem _ hmem)]
          · rw [if_neg hmem, if_neg hij,
              if_neg (by simp [List.mem_cons, SelEntry.mk.injEq, hij, hmem])]
      · intro i
        rw [hfold s, iht i]
        have hs1 : (applyMoveEntry dx dy s ⟨ElemKind.beam, j⟩).texts =
            s.texts := rfl
        rw [hs1]
        by_cases hmem : (⟨ElemKind.text, i⟩ : SelEntry) ∈ l
        · rw [if_pos hmem, if_pos (List.mem_cons_of_mem _ hmem)]
        · rw [if_neg hmem, if_neg (by simp [List.mem_cons, hmem])]
    ·
      refine ⟨?_, ?_, ?_, ?_⟩
      · intro i
        rw [hfold s, ihp i]
        have hs1 : (applyMoveEntry dx dy s ⟨ElemKind.text, j⟩).panels =
            s.panels := rfl
        rw [hs1]
        by_cases hmem : (⟨ElemKind.panel, i⟩ : SelEntry) ∈ l
        · rw [if_pos hmem, if_pos (List.mem_cons_of_mem _ hmem)]
        · rw [if_neg hmem, if_neg (by simp [List.mem_cons, hmem])]
      · intro i
        rw [hfold s, iho i]
        have hs1 : (applyMoveEntry dx dy s ⟨ElemKind.text, j⟩).obstacles =
            s.obstacles := rfl
        rw [hs1]
        by_cases hmem : (⟨ElemKind.obstacle, i⟩ : SelEntry) ∈ l
        · rw [if_pos hmem, if_pos (List.mem_cons_of_mem _ hmem)]
        · rw [if_neg hmem, if_neg (by simp [List.mem_cons, hmem])]
      · intro i
        rw [hfold s, ihb i]
        have hs1 : (applyMoveEntry dx dy s ⟨ElemKind.text, j⟩).beams =
            s.beams := rfl
        rw [hs1]
        by_cases hmem : (⟨ElemKind.beam, i⟩ : SelEntry) ∈ l
        · rw [if_pos hmem, if_pos (List.mem_cons_of_mem _ hmem)]
        · rw [if_neg hmem, if_neg (by simp [List.mem_cons, hmem])]
      · intro i
        rw [hfold s, iht i]
        have hs1 : (applyMoveEntry dx dy s ⟨ElemKind.text, j⟩).texts =
            listModify j (translateText dx dy) s.texts := rfl
        rw [hs1, listModify_get? _ _ j i]
        by_cases hij : i = j
        · subst hij
          rw [if_pos rfl, if_neg (by exact fun h => ha h),
            if_pos (List.mem_cons_self _ _)]
        · by_cases hmem : (⟨ElemKind.text, i⟩ : SelEntry) ∈ l
          · rw [if_pos hmem, if_neg hij,
              if_pos (List.mem_cons_of_mem _ hmem)]
          · rw [if_neg hmem, if_neg hij,
              if_neg (by simp [List.mem_cons, SelEntry.mk.injEq, hij, hmem])]

lemma selCheck_true_of_none (s : EditorState) (dx dy : ℚ)
    (hcb : s.constructionBounds = none) (hpb : s.panelBounds = none) :
    ∀ e, selCheck s dx dy e = true := by
  intro e
  obtain ⟨k, j⟩ := e
  cases k
  · unfold selCheck
    cases s.panels.get? j with
    | none => rfl
    | some p => simp [isRectWithinPanelBounds, hpb]
  · rfl
  · unfold selCheck
    cases s.beams.get? j with
    | none => rfl
    | some b =>
      simp [isLineWithinConstructionBounds, isWithinConstructionBounds, hcb]
  · rfl

/-- C1 corrected: provided construction bounds are set whenever panel
bounds are (the source skips all validation when constructionBounds is
null, even if panelBounds is set), _moveSelected is all-or-nothing for a
duplicate-free selection: if any selected element's prospective position
violates its applicable bound nothing is mutated, and otherwise every
selected element is translated by exactly (dx, dy) while every
unselected element is unchanged. -/
theorem c1_amended (s : EditorState) (dx dy : ℚ)
    (hb : s.panelBounds = none ∨ s.constructionBounds.isSome = true)
    (hnd : s.selectedElements.Nodup) :
    ((∃ e ∈ s.selectedElements, selCheck s dx dy e = false) →
      moveSelected dx dy s = s) ∧
    ((∀ e ∈ s.selectedElements, selCheck s dx dy e = true) →
      (∀ i, (moveSelected dx dy s).panels.get? i =
        if (⟨ElemKind.panel, i⟩ : SelEntry) ∈ s.selectedElements
        then (s.panels.get? i).map (translatePanel dx dy)
        else s.panels.get? i) ∧
      (∀ i, (moveSelected dx dy s).obstacles.get? i =
        if (⟨ElemKind.obstacle, i⟩ : SelEntry) ∈ s.selectedElements
        then (s.obstacles.get? i).map (translateObstacle dx dy)
        else s.obstacles.get? i) ∧
      (∀ i, (moveSelected dx dy s).beams.get? i =
        if (⟨ElemKind.beam, i⟩ : SelEntry) ∈ s.selectedElements
        then (s.beams.get? i).map (translateBeam dx dy)
        else s.beams.get? i) ∧
      (∀ i, (moveSelected dx dy s).texts.get? i =
        if (⟨ElemKind.text, i⟩ : SelEntry) ∈ s.selectedElements
        then (s.texts.get? i).map (translateText dx dy)
        else s.texts.get? i)) := by
  constructor
  · rintro ⟨e, he, hef⟩
    have hsel_ne : ¬(s.selectedElements = []) := by
      intro h
      rw [h] at he
      simp at he
    have hcb : s.constructionBounds.isSome = true := by
      rcases hb with hpb | hcb
      · cases hcbo : s.constructionBounds with
        | some cb => rfl
        | none =>
          have := selCheck_true_of_none s dx dy hcbo hpb e
          rw [hef] at this
          exact Bool.noConfusion this
      · exact hcb
    unfold moveSelected
    rw [if_neg hsel_ne, if_pos ⟨hcb, by
      intro hall
      have := List.all_eq_true.mp hall e he
      rw [hef] at this
      exact Bool.noConfusion this⟩]
  · intro hall
    by_cases hsel : s.selectedElements = []
    · unfold moveSelected
      rw [if_pos hsel]
      refine ⟨?_, ?_, ?_, ?_⟩ <;>
        · intro i
          rw [if_neg (by rw [hsel]; simp)]
    · unfold moveSelected
      rw [if_neg hsel, if_neg (by
        rintro ⟨_, hnall⟩
        exact hnall (List.all_eq_true.mpr hall))]
      exact moveFold_get? dx dy s.selectedElements s hnd

/-- The counterexample state for C1: panel bounds are set, construction
bounds are not, one selected panel sits far outside the panel bounds. -/
def c1state : EditorState :=
  { terraceVertices := []
    constructionBounds := none
    panelBounds := some ⟨0, 10, 0, 10⟩
    obstacles := []
    beams := []
    panels := [⟨100, 100, 10, 10, 10, 0, 0⟩]
    texts := []
    tempPoints := []
    selectedElements := [⟨ElemKind.panel, 0⟩]
    panelConfig := ⟨114, 228, 0, 610⟩
    textConfig := ⟨0, 14⟩
    scale := 4 }

/-- C1 counterexample: the selected panel's prospective position violates
the panel bounds, yet because constructionBounds is null the source skips
validation entirely and mutates the panel — the move is not rejected. -/
theorem c1_counterexample :
    selCheck c1state 5 0 ⟨ElemKind.panel, 0⟩ = false ∧
    c1state.panels.get? 0 = some ⟨100, 100, 10, 10, 10, 0, 0⟩ ∧
    (moveSelected 5 0 c1state).panels.get? 0 =
      some ⟨105, 100, 10, 10, 10, 0, 0⟩ ∧
    ((⟨105, 100, 10, 10, 10, 0, 0⟩ : Panel) ≠ ⟨100, 100, 10, 10, 10, 0, 0⟩) := by
  refine ⟨?_, rfl, ?_, ?_⟩
  · simp [c1state, selCheck, isRectWithinPanelBounds]
  · simp [c1state, moveSelected, applyMoveEntry, listModify_cons_zero,
      translatePanel]
    norm_num
  · intro h
    have := congrArg Panel.x h
    norm_num at this

/-- The valid-move witness state for C1: both bounds set, one selected
panel well inside the panel bounds. -/
def c1stateB : EditorState :=
  { terraceVertices := []
    constructionBounds := some ⟨-10, 595, -10, 398⟩
    panelBounds := some ⟨-50, 635, -50, 438⟩
    obstacles := []
    beams := []
    panels := [⟨0, 0, 114, 228, 228, 0, 610⟩]
    texts := []
    tempPoints := []
    selectedElements := [⟨ElemKind.panel, 0⟩]
    panelConfig := ⟨114, 228, 0, 610⟩
    textConfig := ⟨0, 14⟩
    scale := 4 }

/-- The rejected-move witness state for C1: construction bounds set, the
selected panel's prospective position violates the panel bounds. -/
def c1stateC : EditorState :=
  { terraceVertices := []
    constructionBounds := some ⟨0, 10, 0, 10⟩
    panelBounds := some ⟨0, 10, 0, 10⟩
    obstacles := []
    beams := []
    panels := [⟨100, 100, 10, 10, 10, 0, 0⟩]
    texts := []
    tempPoints := []
    selectedElements := [⟨ElemKind.panel, 0⟩]
    panelConfig := ⟨114, 228, 0, 610⟩
    textConfig := ⟨0, 14⟩
    scale := 4 }

/-- Witness for c1_amended: with construction bounds set an
out-of-bounds move is rejected wholesale, and an in-bounds move
translates the selected panel. -/
theorem c1_amended_witness :
    moveSelected 5 0 c1stateC = c1stateC ∧
    (moveSelected 1 0 c1stateB).panels.get? 0 =
      (if (⟨ElemKind.panel, 0⟩ : SelEntry) ∈ c1stateB.selectedElements
       then (c1stateB.panels.get? 0).map (translatePanel 1 0)
       else c1stateB.panels.get? 0) := by
  constructor
  · exact (c1_amended c1stateC 5 0 (Or.inr rfl) (by simp [c1stateC])).1
      ⟨⟨ElemKind.panel, 0⟩, by simp [c1stateC], by
        simp [c1stateC, selCheck, isRectWithinPanelBounds]⟩
  · exact ((c1_amended c1stateB 1 0 (Or.inr rfl) (by simp [c1stateB])).2 (by
      intro e he
      simp [c1stateB] at he
      subst he
      simp [c1stateB, selCheck, isRectWithinPanelBounds]
      norm_num)).1 0

/-- The reachable-state invariant backing the round-trip claim: the scale
is truthy, and the two derived bounds are either both unset or both
computed from the current terrace with margins 10 and 40. -/
def BoundsInv (s : EditorState) : Prop :=
  s.scale ≠ 0 ∧
  ((s.constructionBounds = none ∧ s.panelBounds = none) ∨
   (∃ bb, getTerraceBounds s.terraceVertices = some bb ∧
      s.constructionBounds = some (calculateConstructionBounds bb 10) ∧
      s.panelBounds =
        some (calculatePanelBounds (calculateConstructionBounds bb 10) 40)))

lemma applyMove_preserves (dx dy : ℚ) (s : EditorState) (e : SelEntry) :
    (applyMoveEntry dx dy s e).terraceVertices = s.terraceVertices ∧
    (applyMoveEntry dx dy s e).constructionBounds = s.constructionBounds ∧
    (applyMoveEntry dx dy s e).panelBounds = s.panelBounds ∧
    (applyMoveEntry dx dy s e).scale = s.scale := by
  obtain ⟨k, j⟩ := e
  cases k <;> exact ⟨rfl, rfl, rfl, rfl⟩

lemma foldMove_preserves (dx dy : ℚ) :
    ∀ (sel : List SelEntry) (s : EditorState),
      (sel.foldl (applyMoveEntry dx dy) s).terraceVertices = s.terraceVertices ∧
      (sel.foldl (applyMoveEntry dx dy) s).constructionBounds = s.constructionBounds ∧
      (sel.foldl (applyMoveEntry dx dy) s).panelBounds = s.panelBounds ∧
      (sel.foldl (applyMoveEntry dx dy) s).scale = s.scale := by
  intro sel
  induction sel with
  | nil => intro s; exact ⟨rfl, rfl, rfl, rfl⟩
  | cons a l ih =>
    intro s
    obtain ⟨h1, h2, h3, h4⟩ := ih (applyMoveEntry dx dy s a)
    obtain ⟨g1, g2, g3, g4⟩ := applyMove_preserves dx dy s a
    rw [List.foldl_cons]
    exact ⟨h1.trans g1, h2.trans g2, h3.trans g3, h4.trans g4⟩

lemma moveSelected_preserves (dx dy : ℚ) (s : EditorState) :
    (moveSelected dx dy s).terraceVertices = s.terraceVertices ∧
    (moveSelected dx dy s).constructionBounds = s.constructionBounds ∧
    (moveSelected dx dy s).panelBounds = s.panelBounds ∧
    (moveSelected dx dy s).scale = s.scale := by
  unfold moveSelected
  split_ifs with h1 h2
  · exact ⟨rfl, rfl, rfl, rfl⟩
  · exact ⟨rfl, rfl, rfl, rfl⟩
  · exact foldMove_preserves dx dy s.selectedElements s

lemma boundsInv_of_fields {s t : EditorState}
    (hv : t.terraceVertices = s.terraceVertices)
    (hc : t.constructionBounds = s.constructionBounds)
    (hp : t.panelBounds = s.panelBounds)
    (hsc : t.scale = s.scale) (h : BoundsInv s) : BoundsInv t := by
  obtain ⟨h1, h2⟩ := h
  refine ⟨by rw [hsc]; exact h1, ?_⟩
  rcases h2 with ⟨hn1, hn2⟩ | ⟨bb, hbb, hcb, hpb⟩
  · exact Or.inl ⟨by rw [hc, hn1], by rw [hp, hn2]⟩
  · exact Or.inr ⟨bb, by rw [hv]; exact hbb, by rw [hc]; exact hcb,
      by rw [hp]; exact hpb⟩

lemma createAutoStructure_inv (numBeams : ℕ) (spacing : ℚ) (profile : ℕ)
    (width height : Option ℚ) (s : EditorState) (h : BoundsInv s) :
    BoundsInv (createAutoStructure numBeams spacing profile width height s).2 := by
  obtain ⟨hscale, hdisj⟩ := h
  unfold createAutoStructure
  by_cases hg : (getTerraceBounds s.terraceVertices).isNone = true
  · have hg0 : getTerraceBounds s.terraceVertices = none :=
      Option.isNone_iff_eq_none.mp hg
    obtain ⟨bb, hbb⟩ := getTerraceBounds_some_of_ge
      [⟨0, 0⟩, ⟨jsOr width 585, 0⟩, ⟨jsOr width 585, jsOr height 388⟩,
       ⟨0, jsOr height 388⟩] (by simp)
    rw [setRectangularTerrace_eq (jsOr width 585) (jsOr height 388) s bb hbb]
    simp only [hg0, Option.isNone_none, if_true, hbb, Option.isNone_some,
      Bool.false_eq_true, if_false]
    split
    · exact ⟨hscale, Or.inr ⟨bb, hbb, rfl, rfl⟩⟩
    · exact ⟨hscale, Or.inr ⟨bb, hbb, rfl, rfl⟩⟩
  · obtain ⟨tb, htb⟩ : ∃ tb, getTerraceBounds s.terraceVertices = some tb := by
      cases hm : getTerraceBounds s.terraceVertices with
      | none => rw [hm] at hg; simp at hg
      | some tb => exact ⟨tb, rfl⟩
    simp only [htb, Option.isNone_some, Bool.false_eq_true, if_false]
    rcases hdisj with ⟨hcb, hpb⟩ | ⟨bb, hbb, hcb, hpb⟩
    · simp only [hcb, hpb, Option.isNone_none, if_true]
      split
      · exact ⟨hscale, Or.inr ⟨tb, htb, rfl, rfl⟩⟩
      · exact ⟨hscale, Or.inr ⟨tb, htb, rfl, rfl⟩⟩
    · simp only [hcb, hpb, Option.isNone_some, Bool.false_eq_true, if_false]
      split
      · exact ⟨hscale, Or.inr ⟨bb, hbb, hcb, hpb⟩⟩
      · exact ⟨hscale, Or.inr ⟨bb, hbb, rfl, rfl⟩⟩

lemma reachable_inv (s : EditorState) (h : Reachable s) : BoundsInv s := by
  induction h with
  | init scaleOpt =>
    refine ⟨?_, Or.inl ⟨rfl, rfl⟩⟩
    cases scaleOpt with
    | none => norm_num [initState, jsOr]
    | some v =>
      by_cases hv : v = 0 <;> simp [initState, jsOr, hv]
  | rectTerrace w hgt s hR ih =>
    obtain ⟨bb, hbb⟩ := getTerraceBounds_some_of_ge
      [⟨0, 0⟩, ⟨w, 0⟩, ⟨w, hgt⟩, ⟨0, hgt⟩] (by simp)
    rw [setRectangularTerrace_eq w hgt s bb hbb]
    exact ⟨ih.1, Or.inr ⟨bb, hbb, rfl, rfl⟩⟩
  | confirm s hR ih =>
    by_cases h3 : 3 ≤ s.tempPoints.length
    · obtain ⟨bb, hbb⟩ := getTerraceBounds_some_of_ge s.tempPoints h3
      rw [confirmTerrace_eq s bb h3 hbb]
      exact ⟨ih.1, Or.inr ⟨bb, hbb, rfl, rfl⟩⟩
    · unfold confirmTerrace
      rw [if_neg h3]
      exact ih
  | clear s hR ih => exact ⟨ih.1, Or.inl ⟨rfl, rfl⟩⟩
  | move dx dy s hR ih =>
    obtain ⟨h1, h2, h3, h4⟩ := moveSelected_preserves dx dy s
    exact boundsInv_of_fields h1 h2 h3 h4 ih
  | autoStructure numBeams spacing profile width height s hR ih =>
    exact createAutoStructure_inv numBeams spacing profile width height s ih
  | elements s obstacles beams panels texts tempPoints selectedElements hR ih =>
    exact boundsInv_of_fields rfl rfl rfl rfl ih

lemma importBase_export (s : EditorState) : importBase (exportData s) s = s := by
  unfold importBase exportData
  simp [ite_self]

/-- C9: for every state reachable through the modelled public operations,
re-importing the exported record restores the terrace vertices, the four
element collections, both config records and the scale exactly, and
whatever bounds the re-imported state carries satisfy the bounds-nesting
property against its terrace bounding box. -/
theorem c9_round_trip (s : EditorState) (hs : Reachable s) :
    (importData (exportData s) s).terraceVertices = s.terraceVertices ∧
    (importData (exportData s) s).obstacles = s.obstacles ∧
    (importData (exportData s) s).beams = s.beams ∧
    (importData (exportData s) s).panels = s.panels ∧
    (importData (exportData s) s).texts = s.texts ∧
    (importData (exportData s) s).panelConfig = s.panelConfig ∧
    (importData (exportData s) s).textConfig = s.textConfig ∧
    (importData (exportData s) s).scale = s.scale ∧
    (∀ cb pb,
      (importData (exportData s) s).constructionBounds = some cb →
      (importData (exportData s) s).panelBounds = some pb →
      boundsSubset cb pb ∧
      ∀ bb,
        getTerraceBounds (importData (exportData s) s).terraceVertices =
          some bb → boundsSubset bb cb) := by
  have hib := importBase_export s
  obtain ⟨hscale, hdisj⟩ := reachable_inv s hs
  rcases hdisj with ⟨hcb, hpb⟩ | ⟨bb, hbb, hcb, hpb⟩
  · by_cases h3 : 3 ≤ s.terraceVertices.length
    · obtain ⟨bb, hbb⟩ := getTerraceBounds_some_of_ge s.terraceVertices h3
      have heq := importData_eq_of_recompute (exportData s) s bb
        (by rw [hib]; exact Or.inl (by rw [hcb]; rfl))
        (by rw [hib]; exact h3) (by rw [hib]; exact hbb)
      rw [hib] at heq
      rw [heq]
      refine ⟨rfl, rfl, rfl, rfl, rfl, rfl, rfl, rfl, ?_⟩
      intro cb pb h1 h2
      obtain rfl : cb = calculateConstructionBounds bb 10 :=
        (Option.some.injEq _ _ ▸ h1).symm
      obtain rfl : pb =
          calculatePanelBounds (calculateConstructionBounds bb 10) 40 :=
        (Option.some.injEq _ _ ▸ h2).symm
      refine ⟨(nestingOfCalc bb).2, ?_⟩
      intro bb' hbb'
      rw [hbb] at hbb'
      rw [← Option.some.inj hbb']
      exact (nestingOfCalc bb).1
    · have heq := importData_eq_of_no_recompute (exportData s) s
        (by rw [hib]; intro hk; exact h3 hk.2)
      rw [hib] at heq
      rw [heq]
      refine ⟨rfl, rfl, rfl, rfl, rfl, rfl, rfl, rfl, ?_⟩
      intro cb pb h1 _
      rw [hcb] at h1
      exact absurd h1 (by simp)
  · have heq := importData_eq_of_no_recompute (exportData s) s
      (by rw [hib]; intro hk; rcases hk.1 with h | h
          · rw [hcb] at h; simp at h
          · rw [hpb] at h; simp at h)
    rw [hib] at heq
    rw [heq]
    refine ⟨rfl, rfl, rfl, rfl, rfl, rfl, rfl, rfl, ?_⟩
    intro cb pb h1 h2
    rw [hcb] at h1
    rw [hpb] at h2
    obtain rfl : cb = calculateConstructionBounds bb 10 :=
      (Option.some.injEq _ _ ▸ h1).symm
    obtain rfl : pb =
        calculatePanelBounds (calculateConstructionBounds bb 10) 40 :=
      (Option.some.injEq _ _ ▸ h2).symm
    refine ⟨(nestingOfCalc bb).2, ?_⟩
    intro bb' hbb'
    rw [hbb] at hbb'
    rw [← Option.some.inj hbb']
    exact (nestingOfCalc bb).1

/-- Witness for c9_round_trip: a state built by the constructor followed
by a 585-by-388 rectangular terrace; the round trip restores its terrace
and its scale. -/
theorem c9_round_trip_witness :
    (importData (exportData (setRectangularTerrace 585 388 (initState none)))
        (setRectangularTerrace 585 388 (initState none))).terraceVertices =
      (setRectangularTerrace 585 388 (initState none)).terraceVertices ∧
    (importData (exportData (setRectangularTerrace 585 388 (initState none)))
        (setRectangularTerrace 585 388 (initState none))).scale =
      (setRectangularTerrace 585 388 (initState none)).scale :=
  ⟨(c9_round_trip _
      (Reachable.rectTerrace 585 388 _ (Reachable.init none))).1,
   (c9_round_trip _
      (Reachable.rectTerrace 585 388 _
        (Reachable.init none))).2.2.2.2.2.2.2.1⟩
